import Mathlib

/-!
# Verification of the projectSentinel anomaly-detection engines

Shallow embedding of the three detection engines of the repository:

* `SentinelDetector` (src/src/backend/sentinel_detector.py),
* the reference script `detect` (src/zebra/runs/serve1.py),
* `AnomalyDetector` (src/src/backend/anomaly_detector.py),

together with theorems settling the claims about them.

Modelling conventions:

* JSON values are `Value` (`vNone` models Python `None`/JSON null).  The
  numbers carried by input records are integers (`vNum`); the fractional
  numbers of the source (thresholds, computed deviations, variances,
  ratios) are exact rationals (`vRat`) rather than IEEE doubles — every
  claim under study involves only integral record quantities, where the
  two agree.
* Python dicts are association lists; Python ≥ 3.7 dicts preserve insertion
  order, which the association lists reproduce.  Python `set`s are
  duplicate-free lists in insertion order; CPython set iteration order is
  implementation-defined, so list order is a determinization of it (no
  claim under study depends on set iteration order).
* Fallible code (KeyError on `d["k"]`, ValueError from
  `datetime.fromisoformat`) is modelled with `Except PyErr`.  On an uncaught
  exception the partially mutated Python object state is not retained by the
  `Except` model; no claim under study depends on post-exception state.
* ISO-8601 timestamp strings are modelled by `TsField`: `absent` (missing
  key), `malformed s` (a string `datetime.fromisoformat` rejects), or
  `valid t` (a parsable string denoting `t` seconds on a linear clock).
* Wall-clock reads (`datetime.now()` / `utcnow()`) are passed in as an
  explicit `now` parameter where their value is observable; the wall-clock
  timestamp field stamped on emitted events is not modelled (no claim under
  study concerns it).
-/

namespace ProjectSentinel

/-- A JSON-like value as handled by the Python engines.  Numbers carried by
the input records are integers (`vNum`); the fractional numbers of the
source (thresholds like `0.15`, computed deviations, variances and ratios)
are exact rationals (`vRat`). -/
inductive Value where
  | vNone
  | vBool (b : Bool)
  | vNum (n : Int)
  | vRat (q : ℚ)
  | vStr (s : String)
deriving DecidableEq

/-- Python truthiness of a value (`None`, `False`, `0` and `""` are falsy). -/
def Value.truthy : Value → Bool
  | .vNone => false
  | .vBool b => b
  | .vNum n => n != 0
  | .vRat q => q != 0
  | .vStr s => s != ""

/-- Integer reading of a value (Python `True == 1`).  Non-numeric operands
of Python arithmetic would raise `TypeError`; the records under study carry
numbers in every numeric field, so the coercion is total here (defaulting
to 0). -/
def Value.toI : Value → Int
  | .vNum n => n
  | .vBool b => if b then 1 else 0
  | _ => 0

/-- Rational reading of a value (for the AnomalyDetector's float
arithmetic). -/
def Value.toQ : Value → ℚ
  | .vNum n => (n : ℚ)
  | .vRat q => q
  | .vBool b => if b then 1 else 0
  | _ => 0

/-- Python `str()` of a value, used for session keys.  Customer and station
identifiers in the data are strings, so only the string case is exercised;
the float `repr` of non-integral numbers is not reproduced. -/
def Value.pyStr : Value → String
  | .vNone => "None"
  | .vBool b => if b then "True" else "False"
  | .vStr s => s
  | .vNum n => toString n
  | .vRat q => toString q

/-- A JSON object (Python dict with string keys), in insertion order. -/
abbrev Payload := List (String × Value)

/-- Python `d.get(k)`: the stored value, or `None` when the key is absent. -/
def pget (p : Payload) (k : String) : Value :=
  match p.find? (fun kv => kv.1 == k) with
  | some kv => kv.2
  | none => .vNone

/-- Python `d.get(k, default)`: the stored value (even when falsy), or the
default only when the key is absent. -/
def pgetD (p : Payload) (k : String) (d : Value) : Value :=
  match p.find? (fun kv => kv.1 == k) with
  | some kv => kv.2
  | none => d

/-- Python `a or b` on values: `a` when truthy, otherwise `b`. -/
def pyOr (a b : Value) : Value := if a.truthy then a else b

/-- Model of `o.getD .vNone`: reading an optional wire field like Python `.get(k)`. -/
def oget (o : Option Value) : Value := o.getD .vNone

/-- Reading an optional wire field with a default, like `.get(k, d)`. -/
def ogetD (o : Option Value) (d : Value) : Value := o.getD d

/-- Association-list lookup, for Python dicts with non-string keys. -/
def alook {κ α : Type} [BEq κ] (m : List (κ × α)) (k : κ) : Option α :=
  match m.find? (fun kv => kv.1 == k) with
  | some kv => some kv.2
  | none => none

/-- Association-list update: replaces the first binding of `k` in place
(keeping its position, like a Python dict assignment on an existing key) or
appends a new binding at the end (like insertion into a Python dict). -/
def aset {κ α : Type} [BEq κ] : List (κ × α) → κ → α → List (κ × α)
  | [], k, v => [(k, v)]
  | (k', v') :: t, k, v =>
      if k' == k then (k, v) :: t else (k', v') :: aset t k v

/-- Python `set.add`: append the element unless already present. -/
def addOnce (l : List Value) (v : Value) : List Value :=
  if v ∈ l then l else l ++ [v]

/-- Python set difference `a - b` on the list model. -/
def setDiff (a b : List Value) : List Value :=
  a.filter (fun x => decide (x ∉ b))

/-- A parsed-or-not ISO-8601 timestamp field (see the header comment). -/
inductive TsField where
  | absent
  | malformed (s : String)
  | valid (t : Int)
deriving DecidableEq

/-- Python truthiness of the timestamp field: a missing key yields `None`
(falsy); any nonempty string — parsable or not — is truthy. -/
def TsField.truthy : TsField → Bool
  | .absent => false
  | .malformed s => s != ""
  | .valid _ => true

/-- Exceptions the embedded code can raise. -/
inductive PyErr where
  | keyError
  | valueError
  | typeError
deriving DecidableEq

/-- Model of `datetime.fromisoformat`: succeeds exactly on parsable strings; raises
`ValueError` on malformed strings and `TypeError` on `None`. -/
def fromiso : TsField → Except PyErr Int
  | .valid t => .ok t
  | .malformed _ => .error .valueError
  | .absent => .error .typeError

/-- The `event` object of the wire shape
`{"dataset": ..., "event": {...}, "timestamp": ...}`.  `none` fields model
absent keys; a present JSON null is `some .vNone`. -/
structure RecEvent where
  status : Option Value
  station_id : Option Value
  customer_id : Option Value
  data : Option Payload
deriving DecidableEq

/-- One normalized input record of the stream. -/
structure StreamRecord where
  dataset : Option String
  event : RecEvent
  timestamp : TsField
deriving DecidableEq

/-- Python `ev["data"]`: raises `KeyError` when the key is missing. -/
def evDataIdx (ev : RecEvent) : Except PyErr Payload :=
  match ev.data with
  | some p => .ok p
  | none => .error .keyError

/-- An event written by `write_event` of sentinel_detector.py / serve1.py:
`{"timestamp": <wall clock, not modelled>, "event_id": ..., "event_data":
{"event_name": ..., **attrs}}`. -/
structure Emitted where
  event_id : String
  name : String
  attrs : List (String × Value)
deriving DecidableEq

/-- Python `f"{n:03d}"`. -/
def pad3 (n : Nat) : String :=
  if n < 10 then "00" ++ toString n
  else if n < 100 then "0" ++ toString n
  else toString n

/-- Substring test on character lists (Python `needle in hay`). -/
def subLoop (hay needle : List Char) : Bool :=
  needle.isPrefixOf hay ||
    (match hay with
     | [] => false
     | _ :: t => subLoop t needle)

/-- Python `needle in hay` on strings. -/
def strHas (hay needle : String) : Bool := subLoop hay.data needle.data

/-- ASCII lowering of one character (the stream identifiers under study
are ASCII, so Python's full-Unicode `str.lower` coincides with this). -/
def lowerChar (c : Char) : Char :=
  if 'A' ≤ c && c ≤ 'Z' then Char.ofNat (c.toNat + 32) else c

/-- Python `s.lower()` on ASCII strings. -/
def pyLower (s : String) : String := ⟨s.data.map lowerChar⟩

/-- Model of `dataset.lower().replace("_", "")` of SentinelDetector.detect
(replacing every occurrence of the one-character pattern `"_"` by the empty
string removes all underscores). -/
def normalizeDataset (s : String) : String :=
  ⟨((pyLower s).data.filter (fun c => c != '_'))⟩

/-- Number of events named `n` in a log. -/
def countName (log : List Emitted) (n : String) : Nat :=
  (log.filter (fun e => e.name == n)).length

/-! ## SentinelDetector (src/src/backend/sentinel_detector.py) -/

namespace Sentinel

/-- The mutable state of a `SentinelDetector` instance.  `log` is the
durable output sink (the JSONL file appended to by `write_event`). -/
structure SState where
  seen_rfids : List (Value × List Value)
  scanned_items : List (Value × List Value)
  expected_weights : List (Value × Int)
  inventory_snapshot : List (String × Value)
  event_counter : Nat
  log : List Emitted
deriving DecidableEq

/-- The freshly constructed detector (`__init__`). -/
def SState.init : SState := ⟨[], [], [], [], 0, []⟩

/-- Model of `SentinelDetector.write_event`: bump the counter, build the event with
id `E%03d`, append it to the sink, and return it. -/
def writeEvent (st : SState) (name : String) (attrs : List (String × Value)) :
    SState × Emitted :=
  let n := st.event_counter + 1
  let e : Emitted := ⟨"E" ++ pad3 n, name, attrs⟩
  ({ st with event_counter := n, log := st.log ++ [e] }, e)

/-- Model of `SentinelDetector._process_rfid_data`. -/
def processRfidData (st : SState) (ev : RecEvent) (cust : Value) :
    SState × Option Emitted :=
  let sku := pget (ev.data.getD []) "sku"
  if sku.truthy then
    ({ st with
       seen_rfids :=
         aset st.seen_rfids cust (addOnce ((alook st.seen_rfids cust).getD []) sku) },
     none)
  else (st, none)

/-- Model of `SentinelDetector._process_pos_transaction`.  Each `return` in the
source ends the chain, so the four checks (scan bookkeeping, system crash,
success operation, weight discrepancy) are sequential and exclusive. -/
def processPosTransaction (st : SState) (ev : RecEvent)
    (station cust status : Value) : SState × Option Emitted :=
  let data := ev.data.getD []
  let sku := pget data "sku"
  let weight := pgetD data "weight_g" (.vNum 0)
  let st1 :=
    if sku.truthy then
      { st with
        scanned_items :=
          aset st.scanned_items cust (addOnce ((alook st.scanned_items cust).getD []) sku),
        expected_weights :=
          aset st.expected_weights cust
            (((alook st.expected_weights cust).getD 0) + weight.toI) }
    else st
  if status == Value.vStr "System Crash" then
    let (st2, e) := writeEvent st1 "Unexpected Systems Crash"
      [("station_id", station), ("duration_seconds", .vNum 180)]
    (st2, some e)
  else if sku.truthy && decide (sku ∈ (alook st1.seen_rfids cust).getD []) then
    let st2 := { st1 with
      seen_rfids :=
        aset st1.seen_rfids cust (((alook st1.seen_rfids cust).getD []).erase sku) }
    let (st3, e) := writeEvent st2 "Succes Operation"
      [("station_id", station), ("customer_id", cust), ("product_sku", sku)]
    (st3, some e)
  else
    let aw := pget data "weight_g"
    let ew := pget data "price"
    if aw.truthy && ew.truthy && decide (|aw.toI - ew.toI| > 50) then
      let (st2, e) := writeEvent st1 "Weight Discrepancies"
        [("station_id", station), ("customer_id", cust), ("product_sku", sku),
         ("expected_weight", ew), ("actual_weight", aw)]
      (st2, some e)
    else (st1, none)

/-- Model of `SentinelDetector._process_product_recognition`.  The source takes
`list(self.scanned_items[cust])[-1]`; set iteration order is determinized
to insertion order here (see the header comment). -/
def processProductRecognition (st : SState) (ev : RecEvent)
    (station cust : Value) : SState × Option Emitted :=
  let data := ev.data.getD []
  let predicted := pget data "predicted_product"
  let lastScanned :=
    (((alook st.scanned_items cust).getD []).getLast?).getD .vNone
  if predicted.truthy && lastScanned.truthy && predicted != lastScanned then
    let (st2, e) := writeEvent st "Barcode Switching"
      [("station_id", station), ("customer_id", cust),
       ("actual_sku", predicted), ("scanned_sku", lastScanned)]
    (st2, some e)
  else (st, none)

/-- Model of `SentinelDetector._process_queue_monitoring`.  The long-queue branch
returns, so the dwell-time check runs only when `customer_count < 6`. -/
def processQueueMonitoring (st : SState) (ev : RecEvent)
    (station cust : Value) : SState × Option Emitted :=
  let data := ev.data.getD []
  let cc := pgetD data "customer_count" (.vNum 0)
  let dwell := pgetD data "average_dwell_time" (.vNum 0)
  if decide (cc.toI ≥ 6) then
    let (st2, e) := writeEvent st "Long Queue Length"
      [("station_id", station), ("num_of_customers", cc)]
    (st2, some e)
  else if decide (dwell.toI ≥ 300) then
    let (st2, e) := writeEvent st "Long Wait Time"
      [("station_id", station), ("customer_id", cust),
       ("wait_time_seconds", dwell)]
    (st2, some e)
  else (st, none)

/-- The payload loop of `SentinelDetector._process_inventory_snapshot`:
on the first `(sku, qty)` pair whose stored value exists and differs, it
writes the event, stores the new value and returns, leaving the remaining
pairs unprocessed; otherwise it stores the value and continues. -/
def invLoop (st : SState) : List (String × Value) → SState × Option Emitted
  | [] => (st, none)
  | (sku, qty) :: rest =>
    match alook st.inventory_snapshot sku with
    | some prior =>
      if qty != prior then
        let (st2, e) := writeEvent st "Inventory Discrepancy"
          [("SKU", .vStr sku), ("Expected_Inventory", prior),
           ("Actual_Inventory", qty)]
        ({ st2 with inventory_snapshot := aset st2.inventory_snapshot sku qty },
         some e)
      else
        invLoop { st with inventory_snapshot := aset st.inventory_snapshot sku qty } rest
    | none =>
      invLoop { st with inventory_snapshot := aset st.inventory_snapshot sku qty } rest

/-- Model of `SentinelDetector._process_inventory_snapshot`. -/
def processInventorySnapshot (st : SState) (ev : RecEvent) :
    SState × Option Emitted :=
  invLoop st (ev.data.getD [])

/-- Model of `SentinelDetector._process_staffing`. -/
def processStaffing (st : SState) (ev : RecEvent) (station : Value) :
    SState × Option Emitted :=
  let data := ev.data.getD []
  let (st2, e) := writeEvent st "Staffing Needs"
    [("station_id", station),
     ("Staff_type", pgetD data "Staff_type" (.vStr "UNKNOWN"))]
  (st2, some e)

/-- Model of `SentinelDetector._process_checkout_action`. -/
def processCheckoutAction (st : SState) (ev : RecEvent) (station : Value) :
    SState × Option Emitted :=
  let data := ev.data.getD []
  let (st2, e) := writeEvent st "Checkout Station Action"
    [("station_id", station), ("Action", pgetD data "Action" (.vStr "Open"))]
  (st2, some e)

/-- The customer loop of `SentinelDetector._check_scanner_avoidance`.  The
source iterates over a snapshot `list(self.seen_rfids.items())` while
clearing individual sets in place; the snapshot is the explicit list
argument here and the live state is threaded. -/
def saLoop (st : SState) (station : Value) :
    List (Value × List Value) → SState
  | [] => st
  | (cust, rfids) :: rest =>
    let scanned := (alook st.scanned_items cust).getD []
    let missing := setDiff rfids scanned
    if missing.isEmpty then saLoop st station rest
    else
      let st2 := missing.foldl
        (fun s sku =>
          (writeEvent s "Scanner Avoidance"
            [("station_id", station), ("customer_id", cust),
             ("product_sku", sku)]).1)
        st
      saLoop { st2 with seen_rfids := aset st2.seen_rfids cust [] } station rest

/-- Model of `SentinelDetector._check_scanner_avoidance`. -/
def checkScannerAvoidance (st : SState) (station : Value) : SState :=
  saLoop st station st.seen_rfids

/-- The customer key of `SentinelDetector.detect`: the data payload's
`customer_id` when truthy, else the event-level `customer_id`, else the
literal `"UNKNOWN"`. -/
def custKey (ev : RecEvent) : Value :=
  pyOr (pget (ev.data.getD []) "customer_id") (ogetD ev.customer_id (.vStr "UNKNOWN"))

/-- Model of `SentinelDetector.detect`: dispatch on the normalized dataset name,
then run the scanner-avoidance sweep after every record. -/
def detect (st : SState) (r : StreamRecord) : SState × Option Emitted :=
  let dl := normalizeDataset (r.dataset.getD "")
  let ev := r.event
  let status := oget ev.status
  let station := ogetD ev.station_id (.vStr "UNKNOWN")
  let cust := custKey ev
  let step :=
    if strHas dl "rfid" && status == Value.vStr "Active" then
      processRfidData st ev cust
    else if strHas dl "pos" || strHas dl "transaction" then
      processPosTransaction st ev station cust status
    else if (strHas dl "product" && strHas dl "recogni") && status == Value.vStr "Active" then
      processProductRecognition st ev station cust
    else if strHas dl "queue" && status == Value.vStr "Active" then
      processQueueMonitoring st ev station cust
    else if strHas dl "inventory" && status == Value.vStr "Active" then
      processInventorySnapshot st ev
    else if strHas dl "staffing" && status == Value.vStr "Active" then
      processStaffing st ev station
    else if strHas dl "checkout" && status == Value.vStr "Active" then
      processCheckoutAction st ev station
    else (st, none)
  (checkScannerAvoidance step.1 station, step.2)

/-- Processing a whole sequence of records. -/
def runS (st : SState) : List StreamRecord → SState
  | [] => st
  | r :: rest => runS (detect st r).1 rest

/-- The set of SKUs seen by RFID for a customer key. -/
def rfidSeen (st : SState) (cust : Value) : List Value :=
  (alook st.seen_rfids cust).getD []

/-- Model of `unscanned(customer)` of the spec: `rfid_seen − pos_scanned`. -/
def unscanned (st : SState) (cust : Value) : List Value :=
  setDiff (rfidSeen st cust) ((alook st.scanned_items cust).getD [])

end Sentinel

/-! ## The reference script detect (src/zebra/runs/serve1.py)

Unlike `SentinelDetector.detect`, the numbered blocks of `serve1.detect`
are independent `if` statements (no `elif`, no early `return` except inside
`write_event`-free bookkeeping), so a single record can traverse several
blocks and emit several events.  The module-level dicts and the
`EVENT_COUNTER` global are gathered in `VState`.  Blocks 1–5 index
`ev["data"]` directly and therefore raise `KeyError` on a record without a
`data` object; blocks 6–7 use `ev.get("data", {})`. -/

namespace Serve1

/-- The module-level state of serve1.py. -/
structure VState where
  seen_rfids : List (Value × List Value)
  scanned_items : List (Value × List Value)
  expected_weights : List (Value × Int)
  inventory_snapshot : List (String × Value)
  event_counter : Nat
  log : List Emitted
deriving DecidableEq

/-- The state at interpreter start. -/
def VState.init : VState := ⟨[], [], [], [], 0, []⟩

/-- serve1's `write_event` (global counter, id `E%03d`, append to the
JSONL sink). -/
def writeEvent (st : VState) (name : String) (attrs : List (String × Value)) :
    VState :=
  let n := st.event_counter + 1
  { st with event_counter := n, log := st.log ++ [⟨"E" ++ pad3 n, name, attrs⟩] }

/-- Block 1 of `detect`: RFID data. -/
def rfidBlock (st : VState) (r : StreamRecord) (cust : Value) :
    Except PyErr VState :=
  if pyLower (r.dataset.getD "") == "rfid_data" &&
      oget r.event.status == Value.vStr "Active" then do
    let data ← evDataIdx r.event
    let sku := pget data "sku"
    if sku.truthy then
      pure { st with
             seen_rfids :=
               aset st.seen_rfids cust (addOnce ((alook st.seen_rfids cust).getD []) sku) }
    else
      pure st
  else pure st

/-- Block 2 of `detect`: POS transactions.  Note that the scanned-items
set receives `sku` unguarded (a record without a `sku` key adds `None` to
the set), that a System Crash record still falls through to the
success-operation check, and that the event is written before the
`discard`. -/
def posBlock (st : VState) (r : StreamRecord) (station cust status : Value) :
    Except PyErr VState :=
  if pyLower (r.dataset.getD "") == "pos_transactions" then do
    let data ← evDataIdx r.event
    let sku := pget data "sku"
    let st := { st with
                scanned_items :=
                  aset st.scanned_items cust
                    (addOnce ((alook st.scanned_items cust).getD []) sku) }
    let weight := pgetD data "weight_g" (.vNum 0)
    let st := { st with
                expected_weights :=
                  aset st.expected_weights cust
                    (((alook st.expected_weights cust).getD 0) + weight.toI) }
    let st :=
      if status == Value.vStr "System Crash" then
        writeEvent st "Unexpected Systems Crash"
          [("station_id", station), ("duration_seconds", .vNum 180)]
      else st
    if decide (sku ∈ (alook st.seen_rfids cust).getD []) then
      let st := writeEvent st "Succes Operation"
        [("station_id", station), ("customer_id", cust), ("product_sku", sku)]
      pure { st with
             seen_rfids :=
               aset st.seen_rfids cust (((alook st.seen_rfids cust).getD []).erase sku) }
    else pure st
  else pure st

/-- Block 3 of `detect`: product recognition (set order determinized to
insertion order for `[-1]`, see the header comment). -/
def recognitionBlock (st : VState) (r : StreamRecord) (station cust status : Value) :
    Except PyErr VState :=
  if pyLower (r.dataset.getD "") == "product_recognition" &&
      status == Value.vStr "Active" then do
    let data ← evDataIdx r.event
    let predicted := pget data "predicted_product"
    let lastScanned :=
      (((alook st.scanned_items cust).getD []).getLast?).getD .vNone
    if predicted.truthy && lastScanned.truthy && predicted != lastScanned then
      pure (writeEvent st "Barcode Switching"
        [("station_id", station), ("customer_id", cust),
         ("actual_sku", predicted), ("scanned_sku", lastScanned)])
    else pure st
  else pure st

/-- Block 4 of `detect`: the weight-discrepancy check, a second independent
`if` on POS records, so it runs even when block 2 already emitted. -/
def weightBlock (st : VState) (r : StreamRecord) (station cust : Value) :
    Except PyErr VState :=
  if pyLower (r.dataset.getD "") == "pos_transactions" then do
    let data ← evDataIdx r.event
    let aw := pget data "weight_g"
    let lastSku :=
      (((alook st.scanned_items cust).getD []).getLast?).getD .vNone
    let ew := pget data "price"
    if aw.truthy && ew.truthy && decide (|aw.toI - ew.toI| > 50) then
      pure (writeEvent st "Weight Discrepancies"
        [("station_id", station), ("customer_id", cust),
         ("product_sku", lastSku), ("expected_weight", ew),
         ("actual_weight", aw)])
    else pure st
  else pure st

/-- Block 5 of `detect`: queue monitoring — the two threshold checks are
independent, so one record can emit both events. -/
def queueBlock (st : VState) (r : StreamRecord) (station cust status : Value) :
    Except PyErr VState :=
  if pyLower (r.dataset.getD "") == "queue_monitor" &&
      status == Value.vStr "Active" then do
    let data ← evDataIdx r.event
    let cc := pgetD data "customer_count" (.vNum 0)
    let dwell := pgetD data "average_dwell_time" (.vNum 0)
    let st :=
      if decide (cc.toI ≥ 6) then
        writeEvent st "Long Queue Length"
          [("station_id", station), ("num_of_customers", cc)]
      else st
    let st :=
      if decide (dwell.toI ≥ 300) then
        writeEvent st "Long Wait Time"
          [("station_id", station), ("customer_id", cust),
           ("wait_time_seconds", dwell)]
      else st
    pure st
  else pure st

/-- The payload loop of block 6: every `(sku, qty)` pair is visited, the
event is written on a differing stored value, and the stored value is
always overwritten afterwards. -/
def invLoopV (st : VState) : List (String × Value) → VState
  | [] => st
  | (sku, qty) :: rest =>
    let st :=
      match alook st.inventory_snapshot sku with
      | some prior =>
        if qty != prior then
          writeEvent st "Inventory Discrepancy"
            [("SKU", .vStr sku), ("Expected_Inventory", prior),
             ("Actual_Inventory", qty)]
        else st
      | none => st
    invLoopV { st with inventory_snapshot := aset st.inventory_snapshot sku qty } rest

/-- Block 6 of `detect`: inventory snapshots (`ev.get("data", {})`, so no
KeyError here). -/
def invBlock (st : VState) (r : StreamRecord) (status : Value) : VState :=
  if pyLower (r.dataset.getD "") == "inventory_snapshots" &&
      status == Value.vStr "Active" then
    invLoopV st (r.event.data.getD [])
  else st

/-- Block 7 of `detect`: staffing and checkout actions. -/
def staffingCheckoutBlock (st : VState) (r : StreamRecord) (station status : Value) :
    VState :=
  let st :=
    if pyLower (r.dataset.getD "") == "staffing" && status == Value.vStr "Active" then
      writeEvent st "Staffing Needs"
        [("station_id", station),
         ("Staff_type", pgetD (r.event.data.getD []) "Staff_type" (.vStr "UNKNOWN"))]
    else st
  if pyLower (r.dataset.getD "") == "checkout_action" && status == Value.vStr "Active" then
    writeEvent st "Checkout Station Action"
      [("station_id", station),
       ("Action", pgetD (r.event.data.getD []) "Action" (.vStr "Open"))]
  else st

/-- Block 8 of `detect`: the scanner-avoidance sweep (same shape as the
sentinel one). -/
def saLoopV (st : VState) (station : Value) :
    List (Value × List Value) → VState
  | [] => st
  | (cust, rfids) :: rest =>
    let scanned := (alook st.scanned_items cust).getD []
    let missing := setDiff rfids scanned
    if missing.isEmpty then saLoopV st station rest
    else
      let st2 := missing.foldl
        (fun s sku =>
          writeEvent s "Scanner Avoidance"
            [("station_id", station), ("customer_id", cust),
             ("product_sku", sku)])
        st
      saLoopV { st2 with seen_rfids := aset st2.seen_rfids cust [] } station rest

/-- serve1's `detect`: the eight blocks in source order. -/
def detect (st : VState) (r : StreamRecord) : Except PyErr VState := do
  let ev := r.event
  let status := oget ev.status
  let station := ogetD ev.station_id (.vStr "UNKNOWN")
  let cust := ogetD ev.customer_id (.vStr "UNKNOWN")
  let st ← rfidBlock st r cust
  let st ← posBlock st r station cust status
  let st ← recognitionBlock st r station cust status
  let st ← weightBlock st r station cust
  let st ← queueBlock st r station cust status
  let st := invBlock st r status
  let st := staffingCheckoutBlock st r station status
  pure (saLoopV st station st.seen_rfids)

/-- Processing a whole sequence of records (stops at the first uncaught
exception, which aborts the `main` read loop). -/
def runV (st : VState) : List StreamRecord → Except PyErr VState
  | [] => .ok st
  | r :: rest => do runV (← detect st r) rest

end Serve1

/-! ## AnomalyDetector (src/src/backend/anomaly_detector.py)

The correlation engine.  Wall-clock reads (`datetime.now()`, used for the
time-based `event_id` strings and for `_get_recent_events`) are an explicit
`now` parameter; the product catalog of `DataProcessor` (loaded from CSV
files external to the engine) is an explicit `catalog` parameter, with
`get_product_info` being a plain dictionary lookup into it. -/

namespace Anomaly

/-- An attribute value of an anomaly event: a scalar, a list (e.g.
`suspicious_weights`), or a nested object (e.g. `evidence`). -/
inductive AVal where
  | ofV (v : Value)
  | ofList (xs : List Value)
  | ofDict (p : List (String × Value))
deriving DecidableEq

/-- An event produced by the `AnomalyDetector` detectors:
`{'timestamp': ..., 'event_id': ..., 'event_data': {'event_name': ...}}`. -/
structure AnomEvt where
  timestamp : TsField
  event_id : String
  name : String
  attrs : List (String × AVal)
deriving DecidableEq

/-- An entry of the windowed event cache (`_cache_event`'s
`enriched_event`). -/
structure CachedEvent where
  timestamp : TsField
  dataset : Value
  station_id : Value
  data : RecEvent
  processed : Bool
deriving DecidableEq

/-- One entry of a session's event list. -/
structure SessEvent where
  dataset : Value
  timestamp : TsField
  data : RecEvent
deriving DecidableEq

/-- A tracked customer session. -/
structure Session where
  customer_id : Value
  station_id : Value
  start_time : TsField
  last_activity : TsField
  events : List SessEvent
  status : String
deriving DecidableEq

/-- The mutable state of an `AnomalyDetector` instance. -/
structure AState where
  event_cache : List (Value × List (Value × List CachedEvent))
  session_tracker : List (String × Session)
deriving DecidableEq

/-- The freshly constructed detector. -/
def AState.init : AState := ⟨[], []⟩

/-- The product catalog of `DataProcessor` (`SKU ↦ product dict`). -/
abbrev Catalog := List (Value × Payload)

/-! The fixed `detection_thresholds` dictionary. -/

def weightTolerance : ℚ := 15 / 100
def queueLengthThreshold : ℚ := 5
def waitTimeThreshold : ℚ := 120
def accuracyThreshold : ℚ := 8 / 10
def correlationWindow : Int := 30
def sessionTimeout : Int := 300

/-- The expiry scan of `_cleanup_expired_sessions` (dict order, strict
`<` against `current_time - session_timeout`). -/
def expiredKeys (thr : Int) : List (String × Session) → Except PyErr (List String)
  | [] => .ok []
  | (k, s) :: rest => do
    let la ← fromiso s.last_activity
    let r ← expiredKeys thr rest
    pure (if la < thr then k :: r else r)

/-- Model of `_cleanup_expired_sessions`. -/
def cleanupExpiredSessions (st : AState) (current : Int) : Except PyErr AState := do
  let ex ← expiredKeys (current - sessionTimeout) st.session_tracker
  pure { st with session_tracker :=
    st.session_tracker.filter (fun kv => decide (kv.1 ∉ ex)) }

/-- Model of `_update_session_tracking`: runs only for records whose data payload
carries a truthy `customer_id`; creates or extends the
`f"{station_id}_{customer_id}"` session and then sweeps expired ones. -/
def updateSessionTracking (st : AState) (stationK datasetK : Value)
    (ev : RecEvent) (ts : TsField) : Except PyErr AState := do
  let cust := pget (ev.data.getD []) "customer_id"
  if cust.truthy then do
    let skey := stationK.pyStr ++ "_" ++ cust.pyStr
    let current ← fromiso ts
    let base :=
      match alook st.session_tracker skey with
      | some s => s
      | none => ⟨cust, stationK, ts, ts, [], "active"⟩
    let s2 := { base with
                last_activity := ts,
                events := base.events ++ [⟨datasetK, ts, ev⟩] }
    cleanupExpiredSessions
      { st with session_tracker := aset st.session_tracker skey s2 } current
  else pure st

/-- The pruning comprehension of `_cache_event` (also `_get_recent_events`):
keep, in order, the entries whose parsed timestamp is strictly newer than
the cutoff.  Parsing a malformed cached timestamp raises. -/
def filterRecent (cutoff : Int) : List CachedEvent → Except PyErr (List CachedEvent)
  | [] => .ok []
  | e :: rest => do
    let t ← fromiso e.timestamp
    let r ← filterRecent cutoff rest
    pure (if t > cutoff then e :: r else r)

/-- Model of `_cache_event`: ensure the `(station, dataset)` keys, compute the
60-second cutoff from the incoming record's timestamp (raising on a
malformed timestamp), append the enriched event, prune, and update the
session tracking. -/
def cacheEvent (st : AState) (stationK datasetK : Value) (ev : RecEvent)
    (ts : TsField) : Except PyErr AState := do
  let stations :=
    if (alook st.event_cache stationK).isSome then st.event_cache
    else aset st.event_cache stationK []
  let dsmap := (alook stations stationK).getD []
  let dsmap :=
    if (alook dsmap datasetK).isSome then dsmap else aset dsmap datasetK []
  let cutoff := (← fromiso ts) - 60
  let enriched : CachedEvent := ⟨ts, datasetK, stationK, ev, false⟩
  let lst ← filterRecent cutoff ((alook dsmap datasetK).getD [] ++ [enriched])
  updateSessionTracking
    { st with event_cache := aset stations stationK (aset dsmap datasetK lst) }
    stationK datasetK ev ts

/-- The five stream buckets returned by `_get_correlated_events`. -/
structure CorrEvents where
  pos_transactions : List CachedEvent
  rfid_readings : List CachedEvent
  product_recognition : List CachedEvent
  queue_monitoring : List CachedEvent
  inventory_snapshots : List CachedEvent
deriving DecidableEq

def CorrEvents.empty : CorrEvents := ⟨[], [], [], [], []⟩

/-- Model of `dataset_mapping.get(dataset, dataset.lower())`; the default expression
is evaluated eagerly, so a non-string cache key would raise
(AttributeError, folded into `typeError` here). -/
def corrKey (d : Value) : Except PyErr String :=
  match d with
  | .vStr s =>
    .ok (if s == "POS_Transactions" then "pos_transactions"
      else if s == "RFID_data" then "rfid_readings"
      else if s == "Product_recognism" then "product_recognition"
      else if s == "Queue_monitor" then "queue_monitoring"
      else if s == "Current_inventory_data" then "inventory_snapshots"
      else pyLower s)
  | _ => .error .typeError

/-- Append a cached event to the bucket named `key`, ignoring keys outside
the five correlation buckets (`if correlation_key in correlated_events`). -/
def CorrEvents.add (c : CorrEvents) (key : String) (e : CachedEvent) : CorrEvents :=
  if key == "pos_transactions" then
    { c with pos_transactions := c.pos_transactions ++ [e] }
  else if key == "rfid_readings" then
    { c with rfid_readings := c.rfid_readings ++ [e] }
  else if key == "product_recognition" then
    { c with product_recognition := c.product_recognition ++ [e] }
  else if key == "queue_monitoring" then
    { c with queue_monitoring := c.queue_monitoring ++ [e] }
  else if key == "inventory_snapshots" then
    { c with inventory_snapshots := c.inventory_snapshots ++ [e] }
  else c

/-- The inner event loop of `_get_correlated_events`: keep events whose
parsed timestamp lies in the inclusive window. -/
def corrFold (ws we : Int) (key : String) (c : CorrEvents) :
    List CachedEvent → Except PyErr CorrEvents
  | [] => .ok c
  | e :: rest => do
    let t ← fromiso e.timestamp
    let c := if decide (ws ≤ t) && decide (t ≤ we) then c.add key e else c
    corrFold ws we key c rest

/-- The outer dataset loop of `_get_correlated_events`. -/
def corrDatasets (ws we : Int) (c : CorrEvents) :
    List (Value × List CachedEvent) → Except PyErr CorrEvents
  | [] => .ok c
  | (d, evs) :: rest => do
    let key ← corrKey d
    let c ← corrFold ws we key c evs
    corrDatasets ws we c rest

/-- Model of `_get_correlated_events` (window defaulting to `correlation_window`). -/
def getCorrelatedEvents (st : AState) (stationK : Value) (ts : TsField)
    (window : Option Int) : Except PyErr CorrEvents := do
  let w := window.getD correlationWindow
  let ct ← fromiso ts
  match alook st.event_cache stationK with
  | none => pure CorrEvents.empty
  | some dsmap => corrDatasets (ct - w) (ct + w) CorrEvents.empty dsmap

/-- Model of `_get_recent_events`: cached entries of one `(station, dataset)` pair
whose timestamp is within `seconds` of the wall clock. -/
def getRecentEvents (st : AState) (now : Int) (stationK datasetK : Value)
    (seconds : Int) : Except PyErr (List CachedEvent) :=
  match alook st.event_cache stationK with
  | none => .ok []
  | some dsmap =>
    match alook dsmap datasetK with
    | none => .ok []
    | some evs => filterRecent (now - seconds) evs

/-- Model of `_detect_pos_anomalies`: the single-stream weight-deviation check
against the catalog's expected weight.  `round(deviation*100, 2)` is
modelled by the exact rational (no claim under study concerns the
`deviation_percent` attribute). -/
def detectPosAnomalies (catalog : Catalog) (now : Int) (stationK : Value)
    (ev : RecEvent) (ts : TsField) : List AnomEvt :=
  let data := ev.data.getD []
  let sku := pget data "sku"
  let weight := (pgetD data "weight_g" (.vNum 0)).toQ
  let customer := pget data "customer_id"
  if !sku.truthy then []
  else
    match alook catalog sku with
    | some pinfo =>
      if !pinfo.isEmpty && decide (weight > 0) then
        let expected := (pgetD pinfo "weight" (.vNum 0)).toQ
        if decide (expected > 0) then
          let deviation := |weight - expected| / expected
          if decide (deviation > weightTolerance) then
            [⟨ts, "WD_" ++ toString now, "Weight Discrepancies",
              [("station_id", .ofV stationK), ("customer_id", .ofV customer),
               ("product_sku", .ofV sku),
               ("expected_weight", .ofV (.vRat expected)),
               ("actual_weight", .ofV (.vRat weight)),
               ("deviation_percent", .ofV (.vRat (deviation * 100)))]⟩]
          else []
        else []
      else []
    | none => []

/-- One hexadecimal digit of Python `int(s, 16)`. -/
def hexDigit (c : Char) : Option Nat :=
  let n := c.toNat
  if 48 ≤ n ∧ n ≤ 57 then some (n - 48)
  else if 97 ≤ n ∧ n ≤ 102 then some (n - 87)
  else if 65 ≤ n ∧ n ≤ 70 then some (n - 55)
  else none

/-- Python `int(s, 16)` on plain digit strings (the EPC data carries no
sign, whitespace or underscores); `none` models the `ValueError`. -/
def hexParse (s : String) : Option Nat :=
  if s.isEmpty then none
  else s.data.foldl
    (fun acc c => do
      let a ← acc
      let d ← hexDigit c
      pure (a * 16 + d))
    (some 0)

/-- Model of `s.replace("E", "")` of `DataProcessor.validate_epc_to_sku`. -/
def stripE (s : String) : String := ⟨s.data.filter (fun c => c != 'E')⟩

/-- Model of `DataProcessor.validate_epc_to_sku`: hex-range check of the EPC
against the catalog's `EPC_range`; every `ValueError` is caught and
yields `False`.  (A non-string EPC or range would raise `AttributeError`
/ `TypeError` in the source; the catalog and RFID data carry strings.) -/
def validateEpcToSku (catalog : Catalog) (epc sku : Value) : Bool :=
  match alook catalog sku with
  | none => false
  | some pinfo =>
    match pgetD pinfo "EPC_range" (.vStr ""), epc with
    | .vStr er, .vStr epcs =>
      if er == "" || !(strHas er "-") then false
      else
        match er.splitOn "-" with
        | [rs, re] =>
          match hexParse (stripE epcs), hexParse (stripE rs), hexParse (stripE re) with
          | some e, some a, some b => decide (a ≤ e) && decide (e ≤ b)
          | _, _, _ => false
        | _ => false
    | _, _ => false

/-- Model of `_detect_rfid_anomalies`: EPC validation plus the recent-POS
scanner-avoidance check. -/
def detectRfidAnomalies (catalog : Catalog) (now : Int) (st : AState)
    (stationK : Value) (ev : RecEvent) (ts : TsField) :
    Except PyErr (List AnomEvt) := do
  let data := ev.data.getD []
  let epc := pget data "epc"
  let sku := pget data "sku"
  let location := pget data "location"
  if !epc.truthy || !sku.truthy then pure []
  else do
    let d1 :=
      if !validateEpcToSku catalog epc sku then
        [⟨ts, "BS_" ++ toString now, "Barcode Switching",
          [("station_id", .ofV stationK), ("epc", .ofV epc),
           ("claimed_sku", .ofV sku), ("location", .ofV location)]⟩]
      else []
    if location == Value.vStr "IN_SCAN_AREA" then do
      let recent ← getRecentEvents st now stationK (.vStr "POS_Transactions") 10
      let posSkus := recent.map (fun e => pget (e.data.data.getD []) "sku")
      if decide (sku ∉ posSkus) then
        pure (d1 ++
          [⟨ts, "SA_" ++ toString now, "Scanner Avoidance",
            [("station_id", .ofV stationK), ("product_sku", .ofV sku),
             ("epc", .ofV epc),
             ("detection_method", .ofV (.vStr "RFID without POS"))]⟩])
      else pure d1
    else pure d1

/-- Model of `_detect_queue_anomalies`: long-queue (strict `>` against threshold 5,
with a derived Staffing Needs recommendation) and long-wait (strict `>`
against threshold 120); the two checks are independent. -/
def detectQueueAnomalies (now : Int) (stationK : Value) (ev : RecEvent)
    (ts : TsField) : List AnomEvt :=
  let data := ev.data.getD []
  let cc := (pgetD data "customer_count" (.vNum 0)).toQ
  let dwell := (pgetD data "average_dwell_time" (.vNum 0)).toQ
  (if decide (cc > queueLengthThreshold) then
    [⟨ts, "LQ_" ++ toString now, "Long Queue Length",
      [("station_id", .ofV stationK), ("customer_count", .ofV (.vRat cc)),
       ("threshold", .ofV (.vRat queueLengthThreshold))]⟩,
     ⟨ts, "SN_" ++ toString now, "Staffing Needs",
      [("station_id", .ofV stationK),
       ("staff_type", .ofV (.vStr "Cashier")),
       ("reason", .ofV (.vStr "Long queue detected")),
       ("priority", .ofV (.vStr "high"))]⟩]
   else []) ++
  (if decide (dwell > waitTimeThreshold) then
    [⟨ts, "LW_" ++ toString now, "Long Wait Time",
      [("station_id", .ofV stationK), ("wait_time_seconds", .ofV (.vRat dwell)),
       ("threshold", .ofV (.vRat waitTimeThreshold))]⟩]
   else [])

/-- Model of `_detect_recognition_anomalies`. -/
def detectRecognitionAnomalies (now : Int) (stationK : Value) (ev : RecEvent)
    (ts : TsField) : List AnomEvt :=
  let data := ev.data.getD []
  let predicted := pget data "predicted_product"
  let accuracy := (pgetD data "accuracy" (.vNum 0)).toQ
  if decide (accuracy < accuracyThreshold) then
    [⟨ts, "RA_" ++ toString now, "Low Recognition Accuracy",
      [("station_id", .ofV stationK), ("predicted_sku", .ofV predicted),
       ("accuracy", .ofV (.vRat accuracy)),
       ("threshold", .ofV (.vRat accuracyThreshold))]⟩]
  else []

/-- Model of `_detect_scanner_avoidance_correlation`. -/
def detectScannerAvoidanceCorrelation (ce : CorrEvents) (now : Int)
    (stationK : Value) (ts : TsField) : List AnomEvt :=
  let scannedSkus := ce.pos_transactions.foldl
    (fun acc e =>
      let sku := pget (e.data.data.getD []) "sku"
      if sku.truthy then addOnce acc sku else acc)
    []
  ce.rfid_readings.foldl
    (fun acc e =>
      let rd := e.data.data.getD []
      let sku := pget rd "sku"
      let location := pget rd "location"
      if sku.truthy && location == Value.vStr "IN_SCAN_AREA" &&
          decide (sku ∉ scannedSkus) then
        acc ++
          [⟨ts, "SA_CORR_" ++ toString now, "Scanner Avoidance",
            [("station_id", .ofV stationK), ("product_sku", .ofV sku),
             ("detection_method",
              .ofV (.vStr "RFID-POS correlation analysis")),
             ("confidence", .ofV (.vRat (85 / 100))),
             ("evidence",
              .ofDict [("rfid_detected", .vBool true),
                       ("pos_scanned", .vBool false),
                       ("location", location)])]⟩]
      else acc)
    []

/-- The closest-POS search of `_detect_barcode_switching_correlation`
(`time_diff <= 10 and time_diff < min_time_diff`, starting from
`float('inf')`). -/
def closestPos (rt : Int) : List CachedEvent → Option (CachedEvent × Int) →
    Except PyErr (Option (CachedEvent × Int))
  | [], best => .ok best
  | e :: rest, best => do
    let t ← fromiso e.timestamp
    let td := |rt - t|
    let best :=
      if decide (td ≤ 10) &&
          (match best with
           | none => true
           | some (_, m) => decide (td < m)) then
        some (e, td)
      else best
    closestPos rt rest best

/-- Model of `sku.split('_')[1] if '_' in sku else 'unknown'` (the category prefix
heuristic; predictions in the data are strings). -/
def catPart (v : Value) : String :=
  match v with
  | .vStr s => if strHas s "_" then ((s.splitOn "_").getD 1 "") else "unknown"
  | _ => "unknown"

/-- The recognition-event loop of `_detect_barcode_switching_correlation`. -/
def bcLoop (ce : CorrEvents) (now : Int) (stationK : Value) (ts : TsField) :
    List CachedEvent → Except PyErr (List AnomEvt)
  | [] => .ok []
  | re :: rest => do
    let predicted := pget (re.data.data.getD []) "predicted_product"
    let rt ← fromiso re.timestamp
    let later ← bcLoop ce now stationK ts rest
    if !predicted.truthy then pure later
    else do
      let best ← closestPos rt ce.pos_transactions none
      match best with
      | none => pure later
      | some (pos, mind) =>
        let posSku := pget (pos.data.data.getD []) "sku"
        if posSku.truthy && predicted != posSku &&
            catPart predicted != catPart posSku then
          pure
            (⟨ts, "BS_CORR_" ++ toString now, "Barcode Switching",
              [("station_id", .ofV stationK),
               ("predicted_sku", .ofV predicted),
               ("scanned_sku", .ofV posSku),
               ("detection_method",
                .ofV (.vStr "Recognition-POS correlation")),
               ("confidence", .ofV (.vRat (75 / 100))),
               ("time_difference", .ofV (.vNum mind))]⟩ :: later)
        else pure later

/-- Model of `_detect_barcode_switching_correlation`. -/
def detectBarcodeSwitchingCorrelation (ce : CorrEvents) (now : Int)
    (stationK : Value) (ts : TsField) : Except PyErr (List AnomEvt) :=
  bcLoop ce now stationK ts ce.product_recognition

/-- Model of `np.var` (population variance), exactly on rationals. -/
def npVar (xs : List ℚ) : ℚ :=
  let n : ℚ := xs.length
  let m := (xs.foldl (· + ·) 0) / n
  ((xs.map (fun x => (x - m) ^ 2)).foldl (· + ·) 0) / n

/-- Distinct elements (`len(set(...))`), in first-occurrence order. -/
def dedupV (xs : List Value) : List Value := xs.foldl addOnce []

/-- The per-customer grouping of `_detect_weight_fraud_correlation`. -/
def groupByCust (evs : List CachedEvent) : List (Value × List CachedEvent) :=
  evs.foldl
    (fun acc e =>
      let c := pget (e.data.data.getD []) "customer_id"
      if c.truthy then aset acc c ((alook acc c).getD [] ++ [e]) else acc)
    []

/-- Model of `_detect_weight_fraud_correlation`: flags a customer whose distinct
products within the window share nearly identical weights
(`np.var < 10`).  `round(variance, 2)` is modelled by the exact value. -/
def detectWeightFraudCorrelation (ce : CorrEvents) (now : Int)
    (stationK : Value) (ts : TsField) : List AnomEvt :=
  (groupByCust ce.pos_transactions).foldl
    (fun acc p =>
      if p.2.length < 2 then acc
      else
        let pairs := p.2.foldl
          (fun l t =>
            let d := t.data.data.getD []
            let w := (pgetD d "weight_g" (.vNum 0)).toQ
            let sku := pget d "sku"
            if decide (w > 0) && sku.truthy then l ++ [(w, sku)] else l)
          []
        let weights := pairs.map Prod.fst
        let skus := pairs.map Prod.snd
        if weights.length > 1 && (dedupV skus).length > 1 then
          let v := npVar weights
          if decide (v < 10) then
            acc ++
              [⟨ts, "WF_" ++ toString now, "Weight Fraud Pattern",
                [("station_id", .ofV stationK), ("customer_id", .ofV p.1),
                 ("detection_method",
                  .ofV (.vStr "Weight pattern correlation")),
                 ("weight_variance", .ofV (.vRat v)),
                 ("products_count", .ofV (.vNum ((dedupV skus).length : Int))),
                 ("suspicious_weights", .ofList (weights.map Value.vRat))]⟩]
          else acc
        else acc)
    []

/-- Model of `_detect_system_correlation_issues`: silence across all three live
streams, or RFID/recognition volume below the expected ratio of POS
volume (`0.8` / `0.9`; the ratios are exact rationals here). -/
def detectSystemCorrelationIssues (ce : CorrEvents) (now : Int)
    (stationK : Value) (ts : TsField) : List AnomEvt :=
  let pc := ce.pos_transactions.length
  let rc := ce.rfid_readings.length
  let gc := ce.product_recognition.length
  if pc == 0 && rc == 0 && gc == 0 then
    [⟨ts, "SC_" ++ toString now, "System Crash",
      [("station_id", .ofV stationK), ("duration_seconds", .ofV (.vNum 30)),
       ("detection_method",
        .ofV (.vStr "Cross-stream correlation analysis"))]⟩]
  else if pc > 0 then
    (if decide ((rc : ℚ) < pc * (8 / 10)) then
      [⟨ts, "RF_FAIL_" ++ toString now, "RFID Sensor Malfunction",
        [("station_id", .ofV stationK),
         ("expected_ratio", .ofV (.vRat (8 / 10))),
         ("actual_ratio", .ofV (.vRat ((rc : ℚ) / pc)))]⟩]
     else []) ++
    (if decide ((gc : ℚ) < pc * (9 / 10)) then
      [⟨ts, "PR_FAIL_" ++ toString now, "Product Recognition System Failure",
        [("station_id", .ofV stationK),
         ("expected_ratio", .ofV (.vRat (9 / 10))),
         ("actual_ratio", .ofV (.vRat ((gc : ℚ) / pc)))]⟩]
     else [])
  else []

/-- Model of `_detect_inventory_shrinkage_correlation`. -/
def detectInventoryShrinkage (ce : CorrEvents) (now : Int) (stationK : Value)
    (ts : TsField) : List AnomEvt :=
  match ce.inventory_snapshots.getLast? with
  | none => []
  | some latest =>
    let invData := latest.data.data.getD []
    let sold := ce.pos_transactions.foldl
      (fun acc e =>
        let sku := pget (e.data.data.getD []) "sku"
        if sku.truthy then aset acc sku ((alook acc sku).getD 0 + 1) else acc)
      ([] : List (Value × Nat))
    sold.foldl
      (fun acc p =>
        let cur :=
          (match p.1 with
           | .vStr s => pgetD invData s (.vNum 0)
           | _ => .vNum 0).toI
        if p.2 ≥ 3 && decide (cur > 50) then
          acc ++
            [⟨ts, "IS_" ++ toString now, "Inventory Discrepancy",
              [("station_id", .ofV stationK), ("sku", .ofV p.1),
               ("sold_quantity", .ofV (.vNum (p.2 : Int))),
               ("current_inventory", .ofV (.vNum cur)),
               ("detection_method",
                .ofV (.vStr "Sales-inventory correlation"))]⟩]
        else acc)
      []

/-- Model of `_detect_cross_stream_anomalies`: the five correlation detectors over
the default window. -/
def detectCrossStreamAnomalies (st : AState) (now : Int) (stationK : Value)
    (ts : TsField) : Except PyErr (List AnomEvt) := do
  let ce ← getCorrelatedEvents st stationK ts none
  let a := detectScannerAvoidanceCorrelation ce now stationK ts
  let b ← detectBarcodeSwitchingCorrelation ce now stationK ts
  let c := detectWeightFraudCorrelation ce now stationK ts
  let d := detectSystemCorrelationIssues ce now stationK ts
  let e := detectInventoryShrinkage ce now stationK ts
  pure (a ++ b ++ c ++ d ++ e)

/-- Insertion sort on seconds (`transaction_times.sort()`). -/
def insortInt (x : Int) : List Int → List Int
  | [] => [x]
  | y :: ys => if x ≤ y then x :: y :: ys else y :: insortInt x ys

def sortInts (xs : List Int) : List Int := xs.foldr insortInt []

/-- The adjacent-pair scan of the rapid-transaction check
(`time_diff < 5`). -/
def rapidPairs (now : Int) (stationK custK : Value) : List Int → List AnomEvt
  | a :: b :: rest =>
    (if b - a < 5 then
      [⟨.valid b, "RT_" ++ toString now, "Rapid Transactions",
        [("station_id", .ofV stationK), ("customer_id", .ofV custK),
         ("time_difference", .ofV (.vNum (b - a))),
         ("detection_method", .ofV (.vStr "Session pattern analysis"))]⟩]
     else []) ++ rapidPairs now stationK custK (b :: rest)
  | _ => []

/-- Model of `datetime.fromisoformat` over a list of timestamps. -/
def parseAll : List TsField → Except PyErr (List Int)
  | [] => .ok []
  | t :: rest => do
    let a ← fromiso t
    let r ← parseAll rest
    pure (a :: r)

/-- Model of `_analyze_single_session`: rapid transactions, session product
mismatch (`list(set)` order determinized to first occurrence), and
suspicious short sessions. -/
def analyzeSingleSession (now : Int) (s : Session) :
    Except PyErr (List AnomEvt) := do
  if s.events.length < 2 then pure []
  else do
    let posEvents := s.events.filter
      (fun e => e.dataset == Value.vStr "POS_Transactions")
    let rfidEvents := s.events.filter
      (fun e => e.dataset == Value.vStr "RFID_data")
    let rapid ←
      if posEvents.length > 1 then do
        let times ← parseAll (posEvents.map (fun e => e.timestamp))
        pure (rapidPairs now s.station_id s.customer_id (sortInts times))
      else pure []
    let rfidSkus := rfidEvents.foldl
      (fun acc e =>
        let d := e.data.data.getD []
        let sku := pget d "sku"
        let loc := pget d "location"
        if sku.truthy && loc == Value.vStr "IN_SCAN_AREA" then addOnce acc sku
        else acc)
      []
    let posSkus := posEvents.foldl
      (fun acc e =>
        let sku := pget (e.data.data.getD []) "sku"
        if sku.truthy then addOnce acc sku else acc)
      []
    let unscannedProducts := setDiff rfidSkus posSkus
    let mismatch :=
      if !unscannedProducts.isEmpty then
        [⟨s.last_activity, "SP_" ++ toString now, "Session Product Mismatch",
          [("station_id", .ofV s.station_id),
           ("customer_id", .ofV s.customer_id),
           ("unscanned_products", .ofList unscannedProducts),
           ("detection_method",
            .ofV (.vStr "Session-based RFID-POS correlation"))]⟩]
      else []
    let stt ← fromiso s.start_time
    let lat ← fromiso s.last_activity
    let dur := lat - stt
    let short :=
      if dur < 30 && posEvents.length > 3 then
        [⟨s.last_activity, "SS_" ++ toString now, "Suspicious Short Session",
          [("station_id", .ofV s.station_id),
           ("customer_id", .ofV s.customer_id),
           ("session_duration", .ofV (.vNum dur)),
           ("items_count", .ofV (.vNum (posEvents.length : Int))),
           ("detection_method", .ofV (.vStr "Session duration analysis"))]⟩]
      else []
    pure (rapid ++ mismatch ++ short)

/-- The session loop of `analyze_customer_session_anomalies`. -/
def sessLoop (now : Int) : List Session → Except PyErr (List AnomEvt)
  | [] => .ok []
  | s :: rest => do
    let a ← analyzeSingleSession now s
    let b ← sessLoop now rest
    pure (a ++ b)

/-- Model of `analyze_customer_session_anomalies` for a given customer id. -/
def analyzeCustomerSessions (st : AState) (now : Int) (cust : Value) :
    Except PyErr (List AnomEvt) :=
  sessLoop now
    ((st.session_tracker.filter (fun kv => kv.2.customer_id == cust)).map
      (fun kv => kv.2))

/-- Model of `AnomalyDetector.process_event`, the per-record entry point: guard on
`station_id` and `timestamp`, cache, stream-specific detection,
cross-stream correlation, session analysis. -/
def processEvent (catalog : Catalog) (now : Int) (st : AState)
    (r : StreamRecord) : Except PyErr (AState × List AnomEvt) := do
  let datasetK :=
    match r.dataset with
    | some s => Value.vStr s
    | none => Value.vNone
  let ec := r.event
  let stationK := oget ec.station_id
  let ts := r.timestamp
  if !stationK.truthy || !ts.truthy then pure (st, [])
  else do
    let st ← cacheEvent st stationK datasetK ec ts
    let evs1 ←
      if datasetK == Value.vStr "POS_Transactions" then
        pure (detectPosAnomalies catalog now stationK ec ts)
      else if datasetK == Value.vStr "RFID_data" then
        detectRfidAnomalies catalog now st stationK ec ts
      else if datasetK == Value.vStr "Queue_monitor" then
        pure (detectQueueAnomalies now stationK ec ts)
      else if datasetK == Value.vStr "Product_recognism" then
        pure (detectRecognitionAnomalies now stationK ec ts)
      else pure []
    let evs2 ← detectCrossStreamAnomalies st now stationK ts
    let cust := pget (ec.data.getD []) "customer_id"
    let evs3 ←
      if cust.truthy then analyzeCustomerSessions st now cust else pure []
    pure (st, evs1 ++ evs2 ++ evs3)

end Anomaly

/-! ## Concrete records used by the claim theorems and witnesses -/

/-- An Active RFID record (wire shape of the stream server). -/
def mkRfid (stn c s : String) : StreamRecord :=
  ⟨some "rfid_data",
   ⟨some (.vStr "Active"), some (.vStr stn), some (.vStr c),
    some [("sku", .vStr s)]⟩, .absent⟩

/-- An Active POS record; `extra` holds further payload fields such as
`weight_g` and `price`. -/
def mkPos (stn c s : String) (extra : Payload) : StreamRecord :=
  ⟨some "pos_transactions",
   ⟨some (.vStr "Active"), some (.vStr stn), some (.vStr c),
    some ([("sku", .vStr s)] ++ extra)⟩, .absent⟩

/-- An Active queue-monitor record. -/
def mkQueue (stn : String) (cc dwell : Int) : StreamRecord :=
  ⟨some "queue_monitor",
   ⟨some (.vStr "Active"), some (.vStr stn), none,
    some [("customer_count", .vNum cc), ("average_dwell_time", .vNum dwell)]⟩,
   .absent⟩

/-- An Active inventory-snapshot record whose data object is the
`SKU ↦ quantity` map itself. -/
def mkInv (stn : String) (pairs : Payload) : StreamRecord :=
  ⟨some "inventory_snapshots",
   ⟨some (.vStr "Active"), some (.vStr stn), none, some pairs⟩, .absent⟩

/-- Name-and-attributes projection of an emitted event (independent of
the assigned id). -/
def Emitted.body (e : Emitted) : String × List (String × Value) :=
  (e.name, e.attrs)

/-- The output log of a serve1 run (empty when the run raised). -/
def logOfV (r : Except PyErr Serve1.VState) : List Emitted :=
  match r with
  | .ok st => st.log
  | .error _ => []

/-- The id discipline of the sentinel sink: the counter equals the number
of events ever written, and the i-th event of the log carries the id
`E%03d` of `i+1` — consecutive, strictly increasing, never reused. -/
def Sentinel.idsOk (st : Sentinel.SState) : Prop :=
  st.log.length = st.event_counter ∧
    ∀ i (h : i < st.log.length), (st.log[i]).event_id = "E" ++ pad3 (i + 1)

/-- Strip the event-level `customer_id` from a record. -/
def noCust (r : StreamRecord) : StreamRecord :=
  { r with event := { r.event with customer_id := none } }

/-- Claim C1's input: one Active RFID record, then one POS record for the
same customer, station and SKU. -/
def seqC1 : List StreamRecord :=
  [mkRfid "SCC1" "C1" "S1", mkPos "SCC1" "C1" "S1" []]

/-- Claim C2's witness state: two tracked customers, one with an unscanned
SKU `S1` (and a scanned `S2`), one with an unscanned `S3`. -/
def stC2 : Sentinel.SState :=
  ⟨[(.vStr "C1", [.vStr "S1", .vStr "S2"]), (.vStr "C2", [.vStr "S3"])],
   [(.vStr "C1", [.vStr "S2"])], [], [], 0, []⟩

/-- Claim C4's multi-pair inventory sequence: a prior value for `A`, then
a payload whose first pair contradicts it while a second pair carries
`B`, then a later snapshot of `B`. -/
def seqC4 : List StreamRecord :=
  [mkInv "WAREHOUSE" [("A", .vNum 120)],
   mkInv "WAREHOUSE" [("A", .vNum 150), ("B", .vNum 100)],
   mkInv "WAREHOUSE" [("B", .vNum 200)]]

/-- The spec's single-SKU inventory scenario: 120, then 150, then 150. -/
def seqC4single : List StreamRecord :=
  [mkInv "WAREHOUSE" [("A", .vNum 120)],
   mkInv "WAREHOUSE" [("A", .vNum 150)],
   mkInv "WAREHOUSE" [("A", .vNum 150)]]

/-- Claim C5's input: a POS scan of `S1`, an RFID read of `S1` (kept by
the sweep because the scan already happened), then a second POS record of
`S1` carrying the discrepant weight 680 against price 425. -/
def seqC5 : List StreamRecord :=
  [mkPos "SCC1" "C1" "S1" [], mkRfid "SCC1" "C1" "S1",
   mkPos "SCC1" "C1" "S1" [("weight_g", .vNum 680), ("price", .vNum 425)]]

/-- Claim C8's pre-state: the POS/RFID/POS prefix after which the RFID
match for `S1` has been consumed by a `Succes Operation`. -/
def stC8 : Sentinel.SState :=
  Sentinel.runS Sentinel.SState.init
    [mkPos "SCC1" "C1" "S1" [], mkRfid "SCC1" "C1" "S1",
     mkPos "SCC1" "C1" "S1" []]

/-- Claim C10's input: a POS scan, an RFID read and a second POS scan of
the same SKU, none of them carrying any `customer_id`. -/
def seqC10 : List StreamRecord :=
  [noCust (mkPos "SCC1" "" "S1" []), noCust (mkRfid "SCC1" "" "S1"),
   noCust (mkPos "SCC1" "" "S1" [])]

/-- The RFID event content of the cache-windowing scenario (claim C7). -/
def evC7 : RecEvent :=
  ⟨some (.vStr "Active"), some (.vStr "SCC1"), none, some [("sku", .vStr "S1")]⟩

/-- The cached entry produced by inserting `evC7` at `t = 0`. -/
def cachedC7 : Anomaly.CachedEvent :=
  ⟨.valid 0, .vStr "RFID_data", .vStr "SCC1", evC7, false⟩

/-- The cache state after inserting `evC7` at `t = 0` into a fresh
detector. -/
def stC7 : Except PyErr Anomaly.AState :=
  Anomaly.cacheEvent Anomaly.AState.init (.vStr "SCC1") (.vStr "RFID_data")
    evC7 (.valid 0)

/-- A correlation query over the outcome of an insert. -/
def corrOf (r : Except PyErr Anomaly.AState) (stn : Value) (ts : TsField)
    (w : Option Int) : Except PyErr Anomaly.CorrEvents :=
  match r with
  | .ok st => Anomaly.getCorrelatedEvents st stn ts w
  | .error e => .error e

/-- A record whose timestamp string is present but unparsable. -/
def badTsRec : StreamRecord :=
  ⟨some "POS_Transactions",
   ⟨some (.vStr "Active"), some (.vStr "SCC1"), none, some []⟩,
   .malformed "not-a-timestamp"⟩

/-- A record carrying no `station_id`. -/
def noStationRec : StreamRecord :=
  ⟨some "POS_Transactions",
   ⟨some (.vStr "Active"), none, none, some []⟩, .valid 0⟩

/-- A POS record with no data object at all (serve1's numbered blocks
index `ev["data"]` directly). -/
def noDataRec : StreamRecord :=
  ⟨some "pos_transactions",
   ⟨some (.vStr "Active"), some (.vStr "SCC1"), none, none⟩, .absent⟩

/-- A one-product catalog with expected weight 100 g (claim C6). -/
def catC6 : Anomaly.Catalog := [(.vStr "S1", [("weight", .vNum 100)])]

/-- A POS event content weighing 200 g against the 100 g expectation. -/
def posC6 (stn : String) : RecEvent :=
  ⟨some (.vStr "Active"), some (.vStr stn), none,
   some [("sku", .vStr "S1"), ("weight_g", .vNum 200),
         ("customer_id", .vStr "C1")]⟩

/-! ## Reduction lemmas for the Except monad's bind and pure -/

theorem bindE_ok {ε α β : Type} (a : α) (f : α → Except ε β) :
    (Except.ok a >>= f) = f a := rfl

theorem bindE_err {ε α β : Type} (e : ε) (f : α → Except ε β) :
    ((Except.error e : Except ε α) >>= f) = .error e := rfl

theorem pureE {ε α : Type} (a : α) : (pure a : Except ε α) = .ok a := rfl

/-! ## Association-list lemmas -/

theorem alook_aset_self {κ α : Type} [DecidableEq κ]
    (m : List (κ × α)) (k : κ) (v : α) : alook (aset m k v) k = some v := by
  induction m with
  | nil => simp [aset, alook, List.find?]
  | cons p t ih =>
    by_cases h : p.1 = k
    · simp [aset, alook, List.find?, h]
    · simpa [aset, alook, List.find?, h] using ih

theorem alook_aset_ne {κ α : Type} [DecidableEq κ]
    (m : List (κ × α)) (k k' : κ) (v : α) (h : k' ≠ k) :
    alook (aset m k v) k' = alook m k' := by
  have hkk : (k == k') = false := beq_eq_false_iff_ne.mpr (Ne.symm h)
  induction m with
  | nil => simp [aset, alook, List.find?, hkk]
  | cons p t ih =>
    obtain ⟨pk, pv⟩ := p
    by_cases hp : pk = k
    · subst hp
      simp [aset, alook, List.find?, hkk]
    · have hpk : (pk == k) = false := beq_eq_false_iff_ne.mpr hp
      by_cases hp' : pk = k'
      · subst hp'
        simp [aset, alook, List.find?, hpk]
      · have hpk' : (pk == k') = false := beq_eq_false_iff_ne.mpr hp'
        simpa [aset, alook, List.find?, hpk, hpk'] using ih

theorem alook_eq_none_iff {κ α : Type} [DecidableEq κ]
    (m : List (κ × α)) (k : κ) :
    alook m k = none ↔ ∀ p ∈ m, p.1 ≠ k := by
  induction m with
  | nil => simp [alook, List.find?]
  | cons p t ih =>
    obtain ⟨pk, pv⟩ := p
    rw [List.forall_mem_cons]
    by_cases hp : pk = k
    · subst hp
      simp [alook, List.find?]
    · have hpk : (pk == k) = false := beq_eq_false_iff_ne.mpr hp
      have hun : alook ((pk, pv) :: t) k = alook t k := by
        simp [alook, List.find?, hpk]
      rw [hun, ih]
      simp [hp]

theorem alook_mem {κ α : Type} [DecidableEq κ]
    (m : List (κ × α)) (k : κ) (v : α) :
    alook m k = some v → (k, v) ∈ m := by
  induction m with
  | nil => intro h; simp [alook, List.find?] at h
  | cons p t ih =>
    obtain ⟨pk, pv⟩ := p
    by_cases hp : pk = k
    · subst hp
      intro h
      simp [alook, List.find?] at h
      subst h
      exact List.Mem.head _
    · have hpk : (pk == k) = false := beq_eq_false_iff_ne.mpr hp
      intro h
      have h' : alook t k = some v := by
        simpa [alook, List.find?, hpk] using h
      exact List.Mem.tail _ (ih h')

theorem alook_of_mem_nodup {κ α : Type} [DecidableEq κ]
    (m : List (κ × α)) (hk : (m.map Prod.fst).Nodup) (k : κ) (v : α)
    (h : (k, v) ∈ m) : alook m k = some v := by
  induction m with
  | nil => simp at h
  | cons p t ih =>
    obtain ⟨pk, pv⟩ := p
    rcases List.mem_cons.mp h with h1 | h1
    · injection h1 with he1 he2
      subst he1
      subst he2
      simp [alook, List.find?]
    · have hkmem : k ∈ t.map Prod.fst := List.mem_map_of_mem Prod.fst h1
      have hne : pk ≠ k := by
        intro he
        exact (List.nodup_cons.mp hk).1 (by rw [he]; exact hkmem)
      have hpk : (pk == k) = false := beq_eq_false_iff_ne.mpr hne
      have := ih (List.nodup_cons.mp hk).2 h1
      simpa [alook, List.find?, hpk] using this

/-! ## Sentinel event-log lemmas -/

namespace Sentinel

theorem writeEvent_fst (st : SState) (n : String) (a : List (String × Value)) :
    (writeEvent st n a).1 =
      { st with
        event_counter := st.event_counter + 1,
        log := st.log ++ [⟨"E" ++ pad3 (st.event_counter + 1), n, a⟩] } := rfl

theorem countName_append (l₁ l₂ : List Emitted) (n : String) :
    countName (l₁ ++ l₂) n = countName l₁ n + countName l₂ n := by
  simp [countName, List.filter_append]

theorem countName_writeEvent_ne (st : SState) (m n : String)
    (a : List (String × Value)) (h : m ≠ n) :
    countName (writeEvent st m a).1.log n = countName st.log n := by
  simp [writeEvent, countName_append, countName, h]

/-- The scanner-avoidance write loop over one customer's missing SKUs:
the bookkeeping fields are untouched and the loop appends exactly one
`Scanner Avoidance` event body per listed SKU. -/
theorem foldWrite_spec (n : String) (f : Value → List (String × Value)) :
    ∀ (xs : List Value) (st : SState),
      (xs.foldl (fun s sku => (writeEvent s n (f sku)).1) st).seen_rfids =
          st.seen_rfids ∧
      (xs.foldl (fun s sku => (writeEvent s n (f sku)).1) st).scanned_items =
          st.scanned_items ∧
      (xs.foldl (fun s sku => (writeEvent s n (f sku)).1) st).log.map
          Emitted.body =
        st.log.map Emitted.body ++ xs.map (fun sku => (n, f sku)) := by
  intro xs
  induction xs with
  | nil => intro st; simp
  | cons x t ih =>
    intro st
    obtain ⟨h1, h2, h3⟩ := ih (writeEvent st n (f x)).1
    simp only [List.foldl_cons]
    refine ⟨by simpa [writeEvent] using h1, by simpa [writeEvent] using h2, ?_⟩
    rw [h3]
    simp [writeEvent, Emitted.body]

/-- Unfolding equation of the sweep loop on a non-empty snapshot. -/
theorem saLoop_cons (st : SState) (station : Value)
    (p : Value × List Value) (t : List (Value × List Value)) :
    saLoop st station (p :: t) =
      if (setDiff p.2 ((alook st.scanned_items p.1).getD [])).isEmpty then
        saLoop st station t
      else
        saLoop
          { (setDiff p.2 ((alook st.scanned_items p.1).getD [])).foldl
              (fun s sku => (writeEvent s "Scanner Avoidance"
                [("station_id", station), ("customer_id", p.1),
                 ("product_sku", sku)]).1) st with
            seen_rfids :=
              aset ((setDiff p.2 ((alook st.scanned_items p.1).getD [])).foldl
                (fun s sku => (writeEvent s "Scanner Avoidance"
                  [("station_id", station), ("customer_id", p.1),
                   ("product_sku", sku)]).1) st).seen_rfids p.1 [] }
          station t := rfl

/-- The sweep loop leaves the scanned-items store untouched and appends,
per snapshot entry, one `Scanner Avoidance` body per SKU of the entry that
is missing from the (fixed) scanned set. -/
theorem saLoop_spec (station : Value) :
    ∀ (l : List (Value × List Value)) (st : SState),
      (saLoop st station l).scanned_items = st.scanned_items ∧
      (saLoop st station l).log.map Emitted.body =
        st.log.map Emitted.body ++
          l.flatMap (fun p =>
            (setDiff p.2 ((alook st.scanned_items p.1).getD [])).map
              (fun sku => ("Scanner Avoidance",
                [("station_id", station), ("customer_id", p.1),
                 ("product_sku", sku)]))) := by
  intro l
  induction l with
  | nil => intro st; simp [saLoop]
  | cons p t ih =>
    intro st
    rw [saLoop_cons]
    by_cases hm :
        (setDiff p.2 ((alook st.scanned_items p.1).getD [])).isEmpty = true
    · rw [if_pos hm]
      obtain ⟨h1, h2⟩ := ih st
      have he : setDiff p.2 ((alook st.scanned_items p.1).getD []) = [] :=
        List.isEmpty_iff.mp hm
      exact ⟨h1, by simpa [he] using h2⟩
    · rw [if_neg hm]
      obtain ⟨f1, f2, f3⟩ := foldWrite_spec "Scanner Avoidance"
        (fun sku => [("station_id", station), ("customer_id", p.1),
          ("product_sku", sku)])
        (setDiff p.2 ((alook st.scanned_items p.1).getD [])) st
      set st2 := (setDiff p.2 ((alook st.scanned_items p.1).getD [])).foldl
        (fun s sku => (writeEvent s "Scanner Avoidance"
          [("station_id", station), ("customer_id", p.1),
           ("product_sku", sku)]).1) st with hst2
      obtain ⟨h1, h2⟩ := ih { st2 with seen_rfids := aset st2.seen_rfids p.1 [] }
      have hsc : ({ st2 with seen_rfids := aset st2.seen_rfids p.1 [] } :
          SState).scanned_items = st.scanned_items := f2
      have hlg : ({ st2 with seen_rfids := aset st2.seen_rfids p.1 [] } :
          SState).log = st2.log := rfl
      refine ⟨?_, ?_⟩
      · rw [h1, hsc]
      · rw [h2, hsc, hlg, f3]
        simp [List.append_assoc]

/-- The seen-RFID store after the sweep loop: entries whose missing set
(against the fixed scanned store) is non-empty are cleared, in snapshot
order. -/
theorem saLoop_seen (station : Value) :
    ∀ (l : List (Value × List Value)) (st : SState),
      (saLoop st station l).seen_rfids =
        l.foldl (fun m p =>
          if (setDiff p.2 ((alook st.scanned_items p.1).getD [])).isEmpty then m
          else aset m p.1 []) st.seen_rfids := by
  intro l
  induction l with
  | nil => intro st; simp [saLoop]
  | cons p t ih =>
    intro st
    rw [saLoop_cons, List.foldl_cons]
    by_cases hm :
        (setDiff p.2 ((alook st.scanned_items p.1).getD [])).isEmpty = true
    · rw [if_pos hm, if_pos hm]
      exact ih st
    · rw [if_neg hm, if_neg hm]
      obtain ⟨f1, f2, f3⟩ := foldWrite_spec "Scanner Avoidance"
        (fun sku => [("station_id", station), ("customer_id", p.1),
          ("product_sku", sku)])
        (setDiff p.2 ((alook st.scanned_items p.1).getD [])) st
      set st2 := (setDiff p.2 ((alook st.scanned_items p.1).getD [])).foldl
        (fun s sku => (writeEvent s "Scanner Avoidance"
          [("station_id", station), ("customer_id", p.1),
           ("product_sku", sku)]).1) st with hst2
      have hsc : ({ st2 with seen_rfids := aset st2.seen_rfids p.1 [] } :
          SState).scanned_items = st.scanned_items := f2
      have hse : ({ st2 with seen_rfids := aset st2.seen_rfids p.1 [] } :
          SState).seen_rfids = aset st.seen_rfids p.1 [] := by
        rw [show ({ st2 with seen_rfids := aset st2.seen_rfids p.1 [] } :
          SState).seen_rfids = aset st2.seen_rfids p.1 [] from rfl, f1]
      rw [ih, hsc, hse]

/-- Once a customer's entry is cleared, the clearing fold keeps it
cleared. -/
theorem foldClear_stable (g : Value × List Value → Bool) :
    ∀ (l : List (Value × List Value)) (m : List (Value × List Value))
      (c : Value), alook m c = some [] →
      alook (l.foldl (fun m p => if g p then m else aset m p.1 []) m) c =
        some [] := by
  intro l
  induction l with
  | nil => intro m c h; simpa using h
  | cons p t ih =>
    intro m c h
    rw [List.foldl_cons]
    by_cases hg : g p = true
    · rw [if_pos hg]; exact ih m c h
    · rw [if_neg hg]
      by_cases hc : p.1 = c
      · subst hc
        exact ih _ _ (alook_aset_self m p.1 [])
      · exact ih _ _ ((alook_aset_ne m p.1 c []
          (fun he => hc he.symm)).trans h)

/-- A customer having some entry with a non-empty missing set in the
snapshot ends up cleared by the fold. -/
theorem foldClear_mem (g : Value × List Value → Bool) :
    ∀ (l : List (Value × List Value)) (m : List (Value × List Value))
      (c : Value), (∃ p ∈ l, p.1 = c ∧ g p = false) →
      alook (l.foldl (fun m p => if g p then m else aset m p.1 []) m) c =
        some [] := by
  intro l
  induction l with
  | nil => rintro m c ⟨p, hp, -⟩; simp at hp
  | cons p t ih =>
    rintro m c ⟨q, hq, hqc, hg⟩
    rw [List.foldl_cons]
    rcases List.mem_cons.mp hq with rfl | hqt
    · have hstep : (if g q = true then m else aset m q.1 []) =
          aset m q.1 [] := by rw [hg]; simp
      rw [hstep]
      subst hqc
      exact foldClear_stable g t _ _ (alook_aset_self m q.1 [])
    · exact ih _ c ⟨q, hqt, hqc, hg⟩

/-- A customer none of whose snapshot entries has a non-empty missing set
is untouched by the fold. -/
theorem foldClear_notmem (g : Value × List Value → Bool) :
    ∀ (l : List (Value × List Value)) (m : List (Value × List Value))
      (c : Value), (∀ p ∈ l, p.1 = c → g p = true) →
      alook (l.foldl (fun m p => if g p then m else aset m p.1 []) m) c =
        alook m c := by
  intro l
  induction l with
  | nil => intro m c _; rfl
  | cons p t ih =>
    intro m c h
    rw [List.foldl_cons]
    by_cases hg : g p = true
    · rw [if_pos hg]
      exact ih _ c (fun q hq => h q (List.mem_cons_of_mem p hq))
    · rw [if_neg hg]
      have hc : p.1 ≠ c := fun he => hg (h p (List.mem_cons_self p t) he)
      rw [ih _ c (fun q hq => h q (List.mem_cons_of_mem p hq))]
      exact alook_aset_ne m p.1 c [] (fun he => hc he.symm)

end Sentinel

/-! ## The claims -/

/-- C1: for the sequence of one Active RFID record carrying SKU `S1` for
customer `C1` followed by one POS record for the same customer, station
and SKU, the engine is claimed to emit exactly one SuccessOperation and to
remove `S1` from `unscanned(C1)`.  Evaluating the cited code on exactly
this sequence shows the claim's failing input: the scanner-avoidance sweep
that runs directly after the RFID record emits a `Scanner Avoidance` event
and clears `C1`'s rfid-seen set, so the POS record finds no match and
**zero** `Succes Operation` events are emitted (while `unscanned(C1)` is
indeed empty afterwards). -/
theorem claim_C1 :
    countName (Sentinel.runS Sentinel.SState.init seqC1).log
        "Succes Operation" = 0 ∧
    countName (Sentinel.runS Sentinel.SState.init seqC1).log
        "Scanner Avoidance" = 1 ∧
    Sentinel.unscanned (Sentinel.runS Sentinel.SState.init seqC1)
        (.vStr "C1") = [] := by
  decide

/-- C2: the scanner-avoidance sweep (run after every record) emits, for
every tracked customer, exactly one `Scanner Avoidance` event per distinct
unscanned SKU (`rfid_seen − pos_scanned`), clears the whole rfid-seen set
of every customer that had a non-empty missing set, and leaves
`unscanned(c)` empty for **every** customer afterwards.  The hypotheses
state that the state is dict-like: customer keys are unique and the
per-customer SKU sets are duplicate-free (as produced by `set.add`). -/
theorem claim_C2 (st : Sentinel.SState) (station : Value)
    (hkeys : (st.seen_rfids.map Prod.fst).Nodup)
    (hsets : ∀ p ∈ st.seen_rfids, p.2.Nodup) :
    ((Sentinel.checkScannerAvoidance st station).log.map Emitted.body =
      st.log.map Emitted.body ++
        st.seen_rfids.flatMap (fun p =>
          (setDiff p.2 ((alook st.scanned_items p.1).getD [])).map
            (fun sku => ("Scanner Avoidance",
              [("station_id", station), ("customer_id", p.1),
               ("product_sku", sku)])))) ∧
    (∀ p ∈ st.seen_rfids,
        (setDiff p.2 ((alook st.scanned_items p.1).getD [])).Nodup) ∧
    (∀ c rf, alook st.seen_rfids c = some rf →
        setDiff rf ((alook st.scanned_items c).getD []) ≠ [] →
        alook (Sentinel.checkScannerAvoidance st station).seen_rfids c =
          some []) ∧
    (∀ c, Sentinel.unscanned (Sentinel.checkScannerAvoidance st station) c
        = []) := by
  have hsw : Sentinel.checkScannerAvoidance st station =
      Sentinel.saLoop st station st.seen_rfids := rfl
  obtain ⟨hscan, hlog⟩ := Sentinel.saLoop_spec station st.seen_rfids st
  have hseen := Sentinel.saLoop_seen station st.seen_rfids st
  refine ⟨by rw [hsw]; exact hlog, ?_, ?_, ?_⟩
  · intro p hp
    exact List.Nodup.filter _ (hsets p hp)
  · intro c rf halook hne
    rw [hsw, hseen]
    refine Sentinel.foldClear_mem _ _ _ _ ⟨(c, rf), alook_mem _ _ _ halook,
      rfl, ?_⟩
    simpa using hne
  · intro c
    unfold Sentinel.unscanned Sentinel.rfidSeen
    rw [hsw, hscan, hseen]
    rcases halook : alook st.seen_rfids c with - | rf
    · have hnone : ∀ p ∈ st.seen_rfids, p.1 ≠ c :=
        (alook_eq_none_iff st.seen_rfids c).mp halook
      rw [Sentinel.foldClear_notmem _ _ _ _
        (fun p hp hpc => absurd hpc (hnone p hp)), halook]
      simp [setDiff]
    · by_cases hmiss :
          (setDiff rf ((alook st.scanned_items c).getD [])).isEmpty = true
      · have hall : ∀ p ∈ st.seen_rfids, p.1 = c →
            (setDiff p.2 ((alook st.scanned_items p.1).getD [])).isEmpty
              = true := by
          intro p hp hpc
          have : alook st.seen_rfids c = some p.2 := by
            rw [← hpc]
            exact alook_of_mem_nodup st.seen_rfids hkeys p.1 p.2 (by
              rcases p with ⟨p1, p2⟩; exact hp)
          rw [halook] at this
          injection this with hrf
          rw [hpc, ← hrf]
          exact hmiss
        rw [Sentinel.foldClear_notmem _ _ _ _ hall, halook]
        exact List.isEmpty_iff.mp hmiss
      · rw [Sentinel.foldClear_mem _ _ _ _ ⟨(c, rf),
          alook_mem _ _ _ halook, rfl, by simpa using hmiss⟩]
        simp [setDiff]

/-- Witness for C2 at a concrete two-customer state: after the sweep,
customer `C1` (who had unscanned `S1`) has an empty unscanned set. -/
theorem claim_C2_witness :
    Sentinel.unscanned
      (Sentinel.checkScannerAvoidance stC2 (.vStr "SCC1")) (.vStr "C1")
      = [] :=
  (claim_C2 stC2 (.vStr "SCC1") (by decide) (by decide)).2.2.2 (.vStr "C1")

/-- Counterexample to C3: an Active queue record with `customer_count = 6`
and `average_dwell_time = 350`.  serve1's detect emits `Long Queue Length`
and (independently) `Long Wait Time` but **no** `Staffing Needs` event, so
the claimed derived StaffingNeeds does not exist in the cited engines; and
on the very same record `SentinelDetector` emits only `Long Queue Length` —
its early return suppresses the dwell check, so the two thresholds are not
independent there either. -/
theorem claim_C3_cex :
    countName (logOfV (Serve1.detect Serve1.VState.init
        (mkQueue "SCC1" 6 350))) "Staffing Needs" = 0 ∧
    countName (logOfV (Serve1.detect Serve1.VState.init
        (mkQueue "SCC1" 6 350))) "Long Queue Length" = 1 ∧
    countName (logOfV (Serve1.detect Serve1.VState.init
        (mkQueue "SCC1" 6 350))) "Long Wait Time" = 1 ∧
    countName ((Sentinel.detect Sentinel.SState.init
        (mkQueue "SCC1" 6 350)).1).log "Long Queue Length" = 1 ∧
    countName ((Sentinel.detect Sentinel.SState.init
        (mkQueue "SCC1" 6 350)).1).log "Long Wait Time" = 0 ∧
    countName ((Sentinel.detect Sentinel.SState.init
        (mkQueue "SCC1" 6 350)).1).log "Staffing Needs" = 0 := by
  decide

/-- C3 as amended: on an Active queue-monitor record, serve1's queue block
emits `Long Queue Length` exactly when `customer_count ≥ 6` and,
independently, `Long Wait Time` exactly when `average_dwell_time ≥ 300`,
and never a `Staffing Needs` event (`customer_count = 5` therefore emits
neither LongQueueLength nor StaffingNeeds); `SentinelDetector`'s queue
handler emits the same LongQueueLength but its long-queue branch returns
early, so its `Long Wait Time` fires only when `customer_count < 6`, and
it emits no StaffingNeeds either. -/
theorem claim_C3 (stv : Serve1.VState) (sts : Sentinel.SState)
    (stn : String) (station cust : Value) (cc dwell : Int) :
    (countName (logOfV (Serve1.queueBlock stv (mkQueue stn cc dwell)
        station cust (.vStr "Active"))) "Long Queue Length" =
      countName stv.log "Long Queue Length" +
        (if 6 ≤ cc then 1 else 0)) ∧
    (countName (logOfV (Serve1.queueBlock stv (mkQueue stn cc dwell)
        station cust (.vStr "Active"))) "Long Wait Time" =
      countName stv.log "Long Wait Time" +
        (if 300 ≤ dwell then 1 else 0)) ∧
    (countName (logOfV (Serve1.queueBlock stv (mkQueue stn cc dwell)
        station cust (.vStr "Active"))) "Staffing Needs" =
      countName stv.log "Staffing Needs") ∧
    (countName ((Sentinel.processQueueMonitoring sts
        (mkQueue stn cc dwell).event station cust).1).log
        "Long Queue Length" =
      countName sts.log "Long Queue Length" +
        (if 6 ≤ cc then 1 else 0)) ∧
    (countName ((Sentinel.processQueueMonitoring sts
        (mkQueue stn cc dwell).event station cust).1).log
        "Long Wait Time" =
      countName sts.log "Long Wait Time" +
        (if 6 ≤ cc then 0 else if 300 ≤ dwell then 1 else 0)) ∧
    (countName ((Sentinel.processQueueMonitoring sts
        (mkQueue stn cc dwell).event station cust).1).log
        "Staffing Needs" = countName sts.log "Staffing Needs") := by
  have h1 : Serve1.queueBlock stv (mkQueue stn cc dwell) station cust
      (.vStr "Active") =
      .ok (if decide (cc ≥ 6) then
          if decide (dwell ≥ 300) then
            Serve1.writeEvent (Serve1.writeEvent stv "Long Queue Length"
              [("station_id", station), ("num_of_customers", .vNum cc)])
              "Long Wait Time"
              [("station_id", station), ("customer_id", cust),
               ("wait_time_seconds", .vNum dwell)]
          else
            Serve1.writeEvent stv "Long Queue Length"
              [("station_id", station), ("num_of_customers", .vNum cc)]
        else
          if decide (dwell ≥ 300) then
            Serve1.writeEvent stv "Long Wait Time"
              [("station_id", station), ("customer_id", cust),
               ("wait_time_seconds", .vNum dwell)]
          else stv) := by
    have hpl : pyLower "queue_monitor" = "queue_monitor" := by decide
    by_cases hcc : (6:Int) ≤ cc <;> by_cases hdw : (300:Int) ≤ dwell <;>
      simp [Serve1.queueBlock, mkQueue, evDataIdx, pgetD, Value.toI,
        List.find?, oget, hcc, hdw, hpl]
  have h2 : Sentinel.processQueueMonitoring sts (mkQueue stn cc dwell).event
      station cust =
      (if decide (cc ≥ 6) then
        ((Sentinel.writeEvent sts "Long Queue Length"
          [("station_id", station), ("num_of_customers", .vNum cc)]).1,
         some (Sentinel.writeEvent sts "Long Queue Length"
          [("station_id", station), ("num_of_customers", .vNum cc)]).2)
      else if decide (dwell ≥ 300) then
        ((Sentinel.writeEvent sts "Long Wait Time"
          [("station_id", station), ("customer_id", cust),
           ("wait_time_seconds", .vNum dwell)]).1,
         some (Sentinel.writeEvent sts "Long Wait Time"
          [("station_id", station), ("customer_id", cust),
           ("wait_time_seconds", .vNum dwell)]).2)
      else (sts, none)) := by
    by_cases hcc : (6:Int) ≤ cc <;> by_cases hdw : (300:Int) ≤ dwell <;>
      simp [Sentinel.processQueueMonitoring, mkQueue, pgetD, Value.toI,
        List.find?, hcc, hdw]
  rw [h1, h2]
  by_cases hcc : (6:Int) ≤ cc <;> by_cases hdw : (300:Int) ≤ dwell <;>
    simp [hcc, hdw, logOfV, Serve1.writeEvent, Sentinel.writeEvent,
      countName, List.filter_append]

/-- C4: the claim says the engine processes every `(sku, qty)` pair of an
inventory payload and always overwrites the stored value.  serve1 does
(first conjuncts: the two-pair payload yields both discrepancies and the
later `B` snapshot is compared against the stored 100).  But
`SentinelDetector._process_inventory_snapshot` — documented as "matching
serve1.py logic" — returns inside the loop on the first discrepancy, so on
the failing input the pair `(B, 100)` is never stored and the later `B`
record emits nothing.  The final conjuncts check the spec's single-SKU
120/150/150 scenario, which both engines satisfy. -/
theorem claim_C4 :
    ((logOfV (Serve1.runV Serve1.VState.init seqC4)).map Emitted.body =
      [("Inventory Discrepancy",
        [("SKU", .vStr "A"), ("Expected_Inventory", .vNum 120),
         ("Actual_Inventory", .vNum 150)]),
       ("Inventory Discrepancy",
        [("SKU", .vStr "B"), ("Expected_Inventory", .vNum 100),
         ("Actual_Inventory", .vNum 200)])]) ∧
    (alook (Sentinel.runS Sentinel.SState.init
        [mkInv "WAREHOUSE" [("A", .vNum 120)],
         mkInv "WAREHOUSE" [("A", .vNum 150), ("B", .vNum 100)]]
      ).inventory_snapshot "B" = none) ∧
    ((Sentinel.runS Sentinel.SState.init seqC4).log.map Emitted.body =
      [("Inventory Discrepancy",
        [("SKU", .vStr "A"), ("Expected_Inventory", .vNum 120),
         ("Actual_Inventory", .vNum 150)])]) ∧
    ((logOfV (Serve1.runV Serve1.VState.init seqC4single)).map Emitted.body =
      [("Inventory Discrepancy",
        [("SKU", .vStr "A"), ("Expected_Inventory", .vNum 120),
         ("Actual_Inventory", .vNum 150)])]) ∧
    ((Sentinel.runS Sentinel.SState.init seqC4single).log.map Emitted.body =
      [("Inventory Discrepancy",
        [("SKU", .vStr "A"), ("Expected_Inventory", .vNum 120),
         ("Actual_Inventory", .vNum 150)])]) := by
  decide

/-- Counterexample to C5: the POS record of `seqC5` is Active (not System
Crash) and carries `weight_g = 680` and `price = 425` with
`|680 − 425| = 255 > 50`, yet `SentinelDetector` emits **no**
`WeightDiscrepancy` for it: the record's SKU matches a pending RFID read,
the `Succes Operation` branch returns first and skips the weight check.
serve1, whose weight check is an independent block, does emit it. -/
theorem claim_C5_cex :
    countName (Sentinel.runS Sentinel.SState.init seqC5).log
      "Weight Discrepancies" = 0 ∧
    countName (Sentinel.runS Sentinel.SState.init seqC5).log
      "Succes Operation" = 1 ∧
    (|(680:Int) - 425| > 50) ∧
    countName (logOfV (Serve1.runV Serve1.VState.init seqC5))
      "Weight Discrepancies" = 1 := by
  decide

/-- C5 as amended: for a POS record carrying truthy `weight_g` and `price`
and a status other than "System Crash": in serve1.py the weight check is
an independent block, so from **every** state it emits exactly one
`Weight Discrepancies` event with `expected_weight = price` and
`actual_weight = weight_g` when `|weight_g − price| > 50` and leaves the
state untouched when `|weight_g − price| ≤ 50`; in sentinel_detector.py
the same check exists but is reached only when the SKU is **not** a
pending RFID match for the customer (the SuccessOperation early return
suppresses it otherwise), and then behaves identically; and on the
matched-RFID sequence `seqC5` serve1 emits both the success event and the
weight discrepancy for the same record. -/
theorem claim_C5 (station cust status : Value) (s : String) (w p : Int)
    (hw : w ≠ 0) (hp : p ≠ 0)
    (hcrash : status ≠ .vStr "System Crash") :
    (∀ stv : Serve1.VState, |w - p| > 50 →
      Serve1.weightBlock stv
        ⟨some "pos_transactions",
         ⟨some status, some station, some cust,
          some [("sku", .vStr s), ("weight_g", .vNum w),
                ("price", .vNum p)]⟩, .absent⟩ station cust =
        .ok (Serve1.writeEvent stv "Weight Discrepancies"
          [("station_id", station), ("customer_id", cust),
           ("product_sku",
             (((alook stv.scanned_items cust).getD []).getLast?).getD
               .vNone),
           ("expected_weight", .vNum p), ("actual_weight", .vNum w)])) ∧
    (∀ stv : Serve1.VState, |w - p| ≤ 50 →
      Serve1.weightBlock stv
        ⟨some "pos_transactions",
         ⟨some status, some station, some cust,
          some [("sku", .vStr s), ("weight_g", .vNum w),
                ("price", .vNum p)]⟩, .absent⟩ station cust = .ok stv) ∧
    (∀ st : Sentinel.SState,
      Value.vStr s ∉ (alook st.seen_rfids cust).getD [] →
      (|w - p| > 50 →
        ((Sentinel.processPosTransaction st
            ⟨some status, some station, none,
             some [("sku", .vStr s), ("weight_g", .vNum w),
                   ("price", .vNum p)]⟩
            station cust status).1).log.map Emitted.body =
          st.log.map Emitted.body ++
            [("Weight Discrepancies",
              [("station_id", station), ("customer_id", cust),
               ("product_sku", .vStr s), ("expected_weight", .vNum p),
               ("actual_weight", .vNum w)])]) ∧
      (|w - p| ≤ 50 →
        ((Sentinel.processPosTransaction st
            ⟨some status, some station, none,
             some [("sku", .vStr s), ("weight_g", .vNum w),
                   ("price", .vNum p)]⟩
            station cust status).1).log = st.log)) ∧
    (countName (logOfV (Serve1.runV Serve1.VState.init seqC5))
        "Succes Operation" = 1 ∧
      countName (logOfV (Serve1.runV Serve1.VState.init seqC5))
        "Weight Discrepancies" = 1) := by
  refine ⟨?_, ?_, ?_, by decide⟩
  · intro stv hgt
    simp only [Serve1.weightBlock, evDataIdx, Option.getD, pget,
      List.find?,
      show (pyLower "pos_transactions" == "pos_transactions") = true
        from rfl,
      show (("sku" : String) == "weight_g") = false from rfl,
      show (("weight_g" : String) == "weight_g") = true from rfl,
      show (("sku" : String) == "price") = false from rfl,
      show (("weight_g" : String) == "price") = false from rfl,
      show (("price" : String) == "price") = true from rfl,
      Value.truthy, Value.toI, bindE_ok, pureE]
    simp [hw, hp, hgt]
  · intro stv hle
    have hnl : ¬(50 < |w - p|) := not_lt.mpr hle
    simp only [Serve1.weightBlock, evDataIdx, Option.getD, pget,
      List.find?,
      show (pyLower "pos_transactions" == "pos_transactions") = true
        from rfl,
      show (("sku" : String) == "weight_g") = false from rfl,
      show (("weight_g" : String) == "weight_g") = true from rfl,
      show (("sku" : String) == "price") = false from rfl,
      show (("weight_g" : String) == "price") = false from rfl,
      show (("price" : String) == "price") = true from rfl,
      Value.truthy, Value.toI, bindE_ok, pureE]
    simp [hnl, pureE]
  · intro st hseen
    constructor
    · intro hgt
      simp only [Sentinel.processPosTransaction, pget, pgetD, List.find?,
        show (("sku" : String) == "sku") = true from rfl,
        show (("sku" : String) == "weight_g") = false from rfl,
        show (("sku" : String) == "price") = false from rfl,
        show (("weight_g" : String) == "weight_g") = true from rfl,
        show (("weight_g" : String) == "price") = false from rfl,
        show (("price" : String) == "price") = true from rfl,
        Value.truthy, Value.toI]
      simp [hcrash, hseen, hw, hp, hgt,
        apply_ite Sentinel.SState.seen_rfids,
        apply_ite Sentinel.SState.log,
        Sentinel.writeEvent, Emitted.body]
    · intro hle
      have hnl : ¬(50 < |w - p|) := not_lt.mpr hle
      simp only [Sentinel.processPosTransaction, pget, pgetD, List.find?,
        show (("sku" : String) == "sku") = true from rfl,
        show (("sku" : String) == "weight_g") = false from rfl,
        show (("sku" : String) == "price") = false from rfl,
        show (("weight_g" : String) == "weight_g") = true from rfl,
        show (("weight_g" : String) == "price") = false from rfl,
        show (("price" : String) == "price") = true from rfl,
        Value.truthy, Value.toI]
      simp [hcrash, hseen, hnl,
        apply_ite Sentinel.SState.seen_rfids,
        apply_ite Sentinel.SState.log]

/-- Witness for C5: instantiating the amended theorem at the spec's two
reference inputs — weight 680 against price 425 (deviation 255) emits the
event with `expected_weight = 425`, `actual_weight = 680` in both engines;
weight 150 against price 148 emits nothing in either. -/
theorem claim_C5_witness :
    (Serve1.weightBlock Serve1.VState.init
        ⟨some "pos_transactions",
         ⟨some (.vStr "Active"), some (.vStr "SCC1"), some (.vStr "C7"),
          some [("sku", .vStr "S1"), ("weight_g", .vNum 680),
                ("price", .vNum 425)]⟩, .absent⟩
        (.vStr "SCC1") (.vStr "C7") =
      .ok (Serve1.writeEvent Serve1.VState.init "Weight Discrepancies"
        [("station_id", .vStr "SCC1"), ("customer_id", .vStr "C7"),
         ("product_sku", .vNone), ("expected_weight", .vNum 425),
         ("actual_weight", .vNum 680)])) ∧
    (|(680 : Int) - 425| = 255) ∧
    (Serve1.weightBlock Serve1.VState.init
        ⟨some "pos_transactions",
         ⟨some (.vStr "Active"), some (.vStr "SCC1"), some (.vStr "C7"),
          some [("sku", .vStr "S1"), ("weight_g", .vNum 150),
                ("price", .vNum 148)]⟩, .absent⟩
        (.vStr "SCC1") (.vStr "C7") = .ok Serve1.VState.init) ∧
    (((Sentinel.processPosTransaction Sentinel.SState.init
        ⟨some (.vStr "Active"), some (.vStr "SCC1"), none,
         some [("sku", .vStr "S1"), ("weight_g", .vNum 680),
               ("price", .vNum 425)]⟩
        (.vStr "SCC1") (.vStr "C7") (.vStr "Active")).1).log.map
          Emitted.body =
      [("Weight Discrepancies",
        [("station_id", .vStr "SCC1"), ("customer_id", .vStr "C7"),
         ("product_sku", .vStr "S1"), ("expected_weight", .vNum 425),
         ("actual_weight", .vNum 680)])]) ∧
    (((Sentinel.processPosTransaction Sentinel.SState.init
        ⟨some (.vStr "Active"), some (.vStr "SCC1"), none,
         some [("sku", .vStr "S1"), ("weight_g", .vNum 150),
               ("price", .vNum 148)]⟩
        (.vStr "SCC1") (.vStr "C7") (.vStr "Active")).1).log = []) := by
  refine ⟨?_, by decide, ?_, ?_, ?_⟩
  · exact (claim_C5 (.vStr "SCC1") (.vStr "C7") (.vStr "Active")
      "S1" 680 425 (by decide) (by decide) (by decide)).1
      Serve1.VState.init (by decide)
  · exact (claim_C5 (.vStr "SCC1") (.vStr "C7") (.vStr "Active")
      "S1" 150 148 (by decide) (by decide) (by decide)).2.1
      Serve1.VState.init (by decide)
  · exact ((claim_C5 (.vStr "SCC1") (.vStr "C7") (.vStr "Active")
      "S1" 680 425 (by decide) (by decide) (by decide)).2.2.1
      Sentinel.SState.init (by decide)).1 (by decide)
  · exact ((claim_C5 (.vStr "SCC1") (.vStr "C7") (.vStr "Active")
      "S1" 150 148 (by decide) (by decide) (by decide)).2.2.1
      Sentinel.SState.init (by decide)).2 (by decide)

/-! ## Event-id discipline of the sentinel sink (claim C6) -/

namespace Sentinel

theorem idsOk_congr (st st' : SState) (hl : st'.log = st.log)
    (hc : st'.event_counter = st.event_counter) (h : idsOk st) :
    idsOk st' := by
  obtain ⟨h1, h2⟩ := h
  refine ⟨by rw [hl, hc]; exact h1, ?_⟩
  intro i hi
  simp only [hl] at hi ⊢
  exact h2 i hi

theorem idsOk_writeEvent (st : SState) (n : String)
    (a : List (String × Value)) (h : idsOk st) :
    idsOk (writeEvent st n a).1 := by
  obtain ⟨h1, h2⟩ := h
  constructor
  · simp [writeEvent, h1]
  · intro i hi
    simp only [writeEvent] at hi ⊢
    simp only [List.length_append, List.length_singleton] at hi
    by_cases hlt : i < st.log.length
    · rw [List.getElem_append_left hlt]
      exact h2 i hlt
    · have hieq : i = st.log.length := by omega
      subst hieq
      rw [List.getElem_concat_length, h1]
      all_goals rfl

theorem idsOk_processRfid (st : SState) (ev : RecEvent) (cust : Value)
    (h : idsOk st) : idsOk (processRfidData st ev cust).1 := by
  simp only [processRfidData]
  split
  · exact idsOk_congr _ _ rfl rfl h
  · exact h

theorem idsOk_processPos (st : SState) (ev : RecEvent)
    (station cust status : Value) (h : idsOk st) :
    idsOk (processPosTransaction st ev station cust status).1 := by
  simp only [processPosTransaction]
  repeat' split
  all_goals first
    | exact h
    | exact idsOk_congr _ _ rfl rfl h
    | exact idsOk_writeEvent _ _ _ h

theorem idsOk_processRecognition (st : SState) (ev : RecEvent)
    (station cust : Value) (h : idsOk st) :
    idsOk (processProductRecognition st ev station cust).1 := by
  simp only [processProductRecognition]
  repeat' split
  all_goals first
    | exact h
    | exact idsOk_writeEvent _ _ _ h

theorem idsOk_processQueue (st : SState) (ev : RecEvent)
    (station cust : Value) (h : idsOk st) :
    idsOk (processQueueMonitoring st ev station cust).1 := by
  simp only [processQueueMonitoring]
  repeat' split
  all_goals first
    | exact h
    | exact idsOk_writeEvent _ _ _ h

theorem idsOk_invLoop (st : SState) (l : List (String × Value))
    (h : idsOk st) : idsOk (invLoop st l).1 := by
  induction l generalizing st with
  | nil => exact h
  | cons p t ih =>
    simp only [invLoop]
    repeat' split
    all_goals first
      | exact ih _ h
      | exact ih _ (idsOk_congr _ _ rfl rfl h)
      | exact idsOk_congr _ _ rfl rfl (idsOk_writeEvent _ _ _ h)

theorem idsOk_processInventory (st : SState) (ev : RecEvent)
    (h : idsOk st) : idsOk (processInventorySnapshot st ev).1 :=
  idsOk_invLoop st _ h

theorem idsOk_processStaffing (st : SState) (ev : RecEvent)
    (station : Value) (h : idsOk st) :
    idsOk (processStaffing st ev station).1 :=
  idsOk_writeEvent _ _ _ h

theorem idsOk_processCheckout (st : SState) (ev : RecEvent)
    (station : Value) (h : idsOk st) :
    idsOk (processCheckoutAction st ev station).1 :=
  idsOk_writeEvent _ _ _ h

theorem idsOk_foldWrite (n : String) (f : Value → List (String × Value)) :
    ∀ (xs : List Value) (st : SState), idsOk st →
      idsOk (xs.foldl (fun s sku => (writeEvent s n (f sku)).1) st) := by
  intro xs
  induction xs with
  | nil => intro st h; exact h
  | cons x t ih =>
    intro st h
    rw [List.foldl_cons]
    exact ih _ (idsOk_writeEvent _ _ _ h)

theorem idsOk_saLoop (station : Value) :
    ∀ (l : List (Value × List Value)) (st : SState), idsOk st →
      idsOk (saLoop st station l) := by
  intro l
  induction l with
  | nil => intro st h; exact h
  | cons p t ih =>
    intro st h
    rw [saLoop_cons]
    split
    · exact ih st h
    · exact ih _ (idsOk_congr _ _ rfl rfl (idsOk_foldWrite _ _ _ _ h))

theorem idsOk_detect (st : SState) (r : StreamRecord) (h : idsOk st) :
    idsOk (detect st r).1 := by
  simp only [detect, checkScannerAvoidance]
  refine idsOk_saLoop _ _ _ ?_
  repeat' split
  all_goals first
    | exact h
    | exact idsOk_processRfid _ _ _ h
    | exact idsOk_processPos _ _ _ _ _ h
    | exact idsOk_processRecognition _ _ _ _ h
    | exact idsOk_processQueue _ _ _ _ h
    | exact idsOk_processInventory _ _ h
    | exact idsOk_processStaffing _ _ _ h
    | exact idsOk_processCheckout _ _ _ h

theorem idsOk_runS : ∀ (rs : List StreamRecord) (st : SState), idsOk st →
    idsOk (runS st rs) := by
  intro rs
  induction rs with
  | nil => intro st h; exact h
  | cons r t ih => intro st h; exact ih _ (idsOk_detect st r h)

end Sentinel

/-- C6 as amended: every event written through the sentinel sink
(`write_event`, used by both sentinel_detector.py and serve1.py) receives
the id `E%03d` of the process-local counter, so over any run from a fresh
detector the i-th event ever emitted carries id `E` followed by the
zero-padded numeral of `i+1` — consecutive, strictly increasing, with no
gaps and no reuse.  (The AnomalyDetector's events do **not** follow this
discipline — see the counterexample.) -/
theorem claim_C6 (rs : List StreamRecord) (i : Nat)
    (h : i < (Sentinel.runS Sentinel.SState.init rs).log.length) :
    ((Sentinel.runS Sentinel.SState.init rs).log[i]).event_id =
      "E" ++ pad3 (i + 1) :=
  (Sentinel.idsOk_runS rs Sentinel.SState.init
    ⟨rfl, fun i hi => absurd hi (by simp [Sentinel.SState.init])⟩).2 i h

/-- Witness for C6: the first event of a one-record run carries id E001. -/
theorem claim_C6_witness :
    ((Sentinel.runS Sentinel.SState.init [mkQueue "SCC1" 6 0]).log.get
      ⟨0, by decide⟩).event_id = "E" ++ pad3 1 := by
  have := claim_C6 [mkQueue "SCC1" 6 0] 0 (by decide)
  simpa using this

/-! ## Cache-pruning lemmas (claim C7) -/

namespace Anomaly

theorem fromiso_ok (ts : TsField) (t : Int) :
    fromiso ts = .ok t ↔ ts = .valid t := by
  cases ts <;> simp [fromiso]

/-- Every survivor of the pruning comprehension has a parsed timestamp
strictly newer than the cutoff. -/
theorem filterRecent_mem (cutoff : Int) :
    ∀ (l l' : List CachedEvent), filterRecent cutoff l = .ok l' →
      ∀ e ∈ l', ∃ te, e.timestamp = .valid te ∧ cutoff < te := by
  intro l
  induction l with
  | nil =>
    intro l' h e he
    simp only [filterRecent] at h
    injection h with h
    subst h
    simp at he
  | cons x t ih =>
    intro l' h e he
    unfold filterRecent at h
    cases hx : fromiso x.timestamp with
    | error er => rw [hx] at h; simp only [bindE_err] at h; cases h
    | ok tx =>
      rw [hx] at h
      simp only [bindE_ok] at h
      cases hr : filterRecent cutoff t with
      | error er => rw [hr] at h; simp only [bindE_err] at h; cases h
      | ok r =>
        rw [hr] at h
        simp only [bindE_ok, pureE] at h
        injection h with h
        subst h
        by_cases htx : tx > cutoff
        · rw [if_pos htx] at he
          rcases List.mem_cons.mp he with rfl | he'
          · exact ⟨tx, (fromiso_ok _ _).mp hx, htx⟩
          · exact ih r hr e he'
        · rw [if_neg htx] at he
          exact ih r hr e he

/-- The just-appended record survives the pruning (its timestamp equals
the reference time) and stays the last — i.e. most recent — entry. -/
theorem filterRecent_last (cutoff : Int) (en : CachedEvent) (tn : Int)
    (htn : en.timestamp = .valid tn) (hgt : cutoff < tn) :
    ∀ (l l' : List CachedEvent),
      filterRecent cutoff (l ++ [en]) = .ok l' → l'.getLast? = some en := by
  intro l
  induction l with
  | nil =>
    intro l' h
    simp only [List.nil_append] at h
    unfold filterRecent at h
    rw [show fromiso en.timestamp = .ok tn by rw [htn]; rfl] at h
    simp only [filterRecent, bindE_ok, pureE] at h
    injection h with h
    subst h
    rw [if_pos hgt]
    simp
  | cons x t ih =>
    intro l' h
    rw [List.cons_append] at h
    unfold filterRecent at h
    cases hx : fromiso x.timestamp with
    | error er => rw [hx] at h; simp only [bindE_err] at h; cases h
    | ok tx =>
      rw [hx] at h
      simp only [bindE_ok] at h
      cases hr : filterRecent cutoff (t ++ [en]) with
      | error er => rw [hr] at h; simp only [bindE_err] at h; cases h
      | ok r =>
        rw [hr] at h
        simp only [bindE_ok, pureE] at h
        injection h with h
        subst h
        have hrl := ih r hr
        by_cases htx : tx > cutoff
        · rw [if_pos htx]
          cases r with
          | nil => simp at hrl
          | cons y ys => rw [List.getLast?_cons_cons]; exact hrl
        · rw [if_neg htx]
          exact hrl

/-- The session-expiry sweep never touches the event cache. -/
theorem cleanup_cache (st : AState) (cur : Int) (st' : AState)
    (h : cleanupExpiredSessions st cur = .ok st') :
    st'.event_cache = st.event_cache := by
  unfold cleanupExpiredSessions at h
  cases hek : expiredKeys (cur - sessionTimeout) st.session_tracker with
  | error e => rw [hek] at h; simp only [bindE_err] at h; cases h
  | ok ex =>
    rw [hek] at h
    simp only [bindE_ok, pureE] at h
    injection h with h
    subst h
    rfl

/-- Session tracking never touches the event cache. -/
theorem updSess_cache (st : AState) (stn ds : Value) (ev : RecEvent)
    (ts : TsField) (st' : AState)
    (h : updateSessionTracking st stn ds ev ts = .ok st') :
    st'.event_cache = st.event_cache := by
  simp only [updateSessionTracking] at h
  by_cases hc : (pget (ev.data.getD []) "customer_id").truthy = true
  · rw [if_pos hc] at h
    cases hts : fromiso ts with
    | error er => rw [hts] at h; simp only [bindE_err] at h; cases h
    | ok cur =>
      rw [hts] at h
      simp only [bindE_ok] at h
      have hc2 := cleanup_cache _ _ _ h
      exact hc2
  · rw [if_neg hc] at h
    injection h with h
    subst h
    rfl

end Anomaly

/-- C7: the windowed event cache keeps its horizon invariant and windowed
queries behave as specified.  Part 1: after any successful insert of a
record with parsable timestamp `t` into the `(station, stream-kind)`
sequence, every entry of that sequence has a parsed timestamp strictly
newer than `t − 60` (no entry older than the 60-second cache horizon
relative to the inserted — most recent — record, which is the sequence's
last entry).  Parts 2–3: the event inserted at `t = 0` is returned by the
default-window correlation query centered at `t = 30` and absent from one
centered at `t = 61` with a 5-second window. -/
theorem claim_C7 :
    (∀ (st : Anomaly.AState) (stn ds : Value) (ev : RecEvent) (t : Int)
      (st' : Anomaly.AState),
      Anomaly.cacheEvent st stn ds ev (.valid t) = .ok st' →
      ∀ dsm l, alook st'.event_cache stn = some dsm →
        alook dsm ds = some l →
        (∀ e ∈ l, ∃ te, e.timestamp = TsField.valid te ∧ t - 60 < te) ∧
        l.getLast? = some ⟨.valid t, ds, stn, ev, false⟩) ∧
    (corrOf stC7 (.vStr "SCC1") (.valid 30) none =
      .ok ⟨[], [cachedC7], [], [], []⟩) ∧
    (corrOf stC7 (.vStr "SCC1") (.valid 61) (some 5) =
      .ok Anomaly.CorrEvents.empty) := by
  refine ⟨?_, rfl, rfl⟩
  intro st stn ds ev t st' h dsm l hdsm hl
  simp only [Anomaly.cacheEvent, fromiso, bindE_ok] at h
  set stations := if (alook st.event_cache stn).isSome = true then
    st.event_cache else aset st.event_cache stn [] with hstations
  set dsmap1 := (alook stations stn).getD [] with hdsmap1
  set dsmap2 := if (alook dsmap1 ds).isSome = true then dsmap1
    else aset dsmap1 ds [] with hdsmap2
  set lstArg := (alook dsmap2 ds).getD [] ++
    [(⟨.valid t, ds, stn, ev, false⟩ : Anomaly.CachedEvent)] with hlstArg
  cases hfr : Anomaly.filterRecent (t - 60) lstArg with
  | error er =>
    rw [hfr] at h
    simp only [bindE_err] at h
    cases h
  | ok lst =>
    rw [hfr] at h
    simp only [bindE_ok] at h
    have hcache := Anomaly.updSess_cache _ _ _ _ _ _ h
    rw [hcache] at hdsm
    rw [show ({ st with
          event_cache := aset stations stn (aset dsmap2 ds lst) } :
        Anomaly.AState).event_cache =
      aset stations stn (aset dsmap2 ds lst) from rfl] at hdsm
    rw [alook_aset_self] at hdsm
    injection hdsm with hdsm
    rw [← hdsm, alook_aset_self] at hl
    injection hl with hl
    subst hl
    constructor
    · exact Anomaly.filterRecent_mem (t - 60) _ _ hfr
    · exact Anomaly.filterRecent_last (t - 60) _ t rfl (by omega) _ _
        (hlstArg ▸ hfr)

/-- Witness for C7: instantiating the invariant at the concrete insert of
`evC7` at `t = 0` into a fresh cache — the resulting one-entry sequence
has the inserted record as its most recent entry. -/
theorem claim_C7_witness :
    [cachedC7].getLast? =
      some ⟨.valid 0, .vStr "RFID_data", .vStr "SCC1", evC7, false⟩ :=
  (claim_C7.1 Anomaly.AState.init (.vStr "SCC1") (.vStr "RFID_data") evC7 0
    ⟨[(.vStr "SCC1", [(.vStr "RFID_data", [cachedC7])])], []⟩ rfl
    [(.vStr "RFID_data", [cachedC7])] [cachedC7] rfl rfl).2

/-- Counterexample to C6: the AnomalyDetector does not draw event ids from
a monotonic counter — `_detect_pos_anomalies` stamps
`WD_<wall-clock-seconds>`, so two weight-discrepancy events produced at
the same wall-clock second (here for different stations and records) carry
the **same** id `WD_1000`: ids are reused and not strictly increasing. -/
theorem claim_C6_cex :
    ((Anomaly.detectPosAnomalies catC6 1000 (.vStr "SCC1") (posC6 "SCC1")
        (.valid 0)).map (fun e => e.event_id) = ["WD_1000"]) ∧
    ((Anomaly.detectPosAnomalies catC6 1000 (.vStr "SCC2") (posC6 "SCC2")
        (.valid 5)).map (fun e => e.event_id) = ["WD_1000"]) := by
  constructor <;>
    · simp only [Anomaly.detectPosAnomalies, posC6, catC6, pget, pgetD,
        alook, List.find?, Value.truthy, Value.toQ,
        Anomaly.weightTolerance, List.isEmpty,
        show (("sku" : String) == "sku") = true from rfl,
        show (("sku" : String) == "weight_g") = false from rfl,
        show (("sku" : String) == "customer_id") = false from rfl,
        show (("weight_g" : String) == "weight_g") = true from rfl,
        show (("weight_g" : String) == "customer_id") = false from rfl,
        show (("customer_id" : String) == "customer_id") = true from rfl,
        show (("weight" : String) == "weight") = true from rfl,
        show (Value.vStr "S1" == Value.vStr "S1") = true from rfl,
        show ¬(("S1" : String) = "") from (by decide)]
      norm_num
      try decide

/-! ## No-double-count lemmas (claim C8) -/

namespace Sentinel

theorem countName_foldWrite (n m : String)
    (f : Value → List (String × Value)) (h : m ≠ n) :
    ∀ (xs : List Value) (st : SState),
      countName ((xs.foldl (fun s sku => (writeEvent s m (f sku)).1) st).log)
        n = countName st.log n := by
  intro xs
  induction xs with
  | nil => intro st; rfl
  | cons x t ih =>
    intro st
    rw [List.foldl_cons, ih, countName_writeEvent_ne _ _ _ _ h]

theorem countName_saLoop (n : String) (h : "Scanner Avoidance" ≠ n)
    (station : Value) :
    ∀ (l : List (Value × List Value)) (st : SState),
      countName (saLoop st station l).log n = countName st.log n := by
  intro l
  induction l with
  | nil => intro st; rfl
  | cons p t ih =>
    intro st
    rw [saLoop_cons]
    split
    · exact ih st
    · rw [ih, show ({ (setDiff p.2 ((alook st.scanned_items p.1).getD
          [])).foldl (fun s sku => (writeEvent s "Scanner Avoidance"
            [("station_id", station), ("customer_id", p.1),
             ("product_sku", sku)]).1) st with
          seen_rfids := aset ((setDiff p.2 ((alook st.scanned_items
            p.1).getD [])).foldl (fun s sku => (writeEvent s
              "Scanner Avoidance" [("station_id", station),
               ("customer_id", p.1), ("product_sku", sku)]).1)
            st).seen_rfids p.1 [] } : SState).log =
          ((setDiff p.2 ((alook st.scanned_items p.1).getD [])).foldl
            (fun s sku => (writeEvent s "Scanner Avoidance"
              [("station_id", station), ("customer_id", p.1),
               ("product_sku", sku)]).1) st).log from rfl,
        countName_foldWrite _ _ _ h]

theorem countName_checkSA (n : String) (h : "Scanner Avoidance" ≠ n)
    (station : Value) (st : SState) :
    countName (checkScannerAvoidance st station).log n =
      countName st.log n :=
  countName_saLoop n h station st.seen_rfids st

/-- A POS record whose SKU is not among the customer's pending RFID reads
never produces a `Succes Operation` event, whatever else it emits. -/
theorem processPos_success_count (st : SState) (ev : RecEvent)
    (station cust status : Value)
    (hseen : pget (ev.data.getD []) "sku" ∉
      (alook st.seen_rfids cust).getD []) :
    countName (processPosTransaction st ev station cust status).1.log
      "Succes Operation" = countName st.log "Succes Operation" := by
  simp only [processPosTransaction]
  repeat' split
  all_goals
    first
      | rfl
      | exact countName_writeEvent_ne _ _ _ _ (by decide)
      | (exfalso
         rename_i hcond
         rw [Bool.and_eq_true] at hcond
         exact hseen (of_decide_eq_true hcond.2))

/-- Unfolding `detect` on a POS-transaction record. -/
theorem detect_pos_eq (st : SState) (stn c s : String) (extra : Payload) :
    detect st (mkPos stn c s extra) =
      (checkScannerAvoidance
        (processPosTransaction st (mkPos stn c s extra).event
          (.vStr stn) (custKey (mkPos stn c s extra).event)
          (.vStr "Active")).1 (.vStr stn),
       (processPosTransaction st (mkPos stn c s extra).event
          (.vStr stn) (custKey (mkPos stn c s extra).event)
          (.vStr "Active")).2) := rfl

end Sentinel

/-- C8: replaying an already-consumed POS record does not double-count.
For any detector state in which the record's SKU is no longer among the
customer's pending RFID reads (as after the first occurrence consumed the
match), processing the POS record again — whatever weight, price or other
payload fields it carries — leaves the number of emitted
`Succes Operation` events unchanged. -/
theorem claim_C8 (st : Sentinel.SState) (stn c s : String) (extra : Payload)
    (hseen : pget (((mkPos stn c s extra).event).data.getD []) "sku" ∉
      (alook st.seen_rfids
        (Sentinel.custKey (mkPos stn c s extra).event)).getD []) :
    countName ((Sentinel.detect st (mkPos stn c s extra)).1).log
        "Succes Operation" =
      countName st.log "Succes Operation" := by
  rw [Sentinel.detect_pos_eq]
  rw [Sentinel.countName_checkSA _ (by decide)]
  exact Sentinel.processPos_success_count _ _ _ _ _ hseen

/-- Witness for C8: after the POS/RFID/POS prefix one `Succes Operation`
has been emitted and the match consumed; replaying the identical POS
record adds none. -/
theorem claim_C8_witness :
    countName stC8.log "Succes Operation" = 1 ∧
    countName ((Sentinel.detect stC8 (mkPos "SCC1" "C1" "S1" [])).1).log
        "Succes Operation" =
      countName stC8.log "Succes Operation" :=
  ⟨by decide, claim_C8 stC8 "SCC1" "C1" "S1" [] (by decide)⟩

/-- Counterexample to C9: the per-record entry points do raise on some
malformed records.  A record whose timestamp string is present but
unparsable makes `AnomalyDetector.process_event` raise `ValueError` from
the `datetime.fromisoformat` call in `_cache_event`, and serve1's `detect`
raises `KeyError` on a POS record with no `data` object
(`ev["data"]`). -/
theorem claim_C9_cex :
    Anomaly.processEvent [] 0 Anomaly.AState.init badTsRec =
      .error .valueError ∧
    Serve1.detect Serve1.VState.init noDataRec = .error .keyError :=
  ⟨rfl, rfl⟩

/-- C9 as amended: a record with a missing (or falsy) `station_id` or a
missing `timestamp` is skipped by `AnomalyDetector.process_event` — it
returns successfully with no anomaly events and the detection state left
unchanged.  (Present-but-unparsable timestamps and serve1 records lacking
their `data` object instead raise — see the counterexample.) -/
theorem claim_C9 (catalog : Anomaly.Catalog) (now : Int)
    (st : Anomaly.AState) (r : StreamRecord)
    (h : (oget r.event.station_id).truthy = false ∨
      r.timestamp.truthy = false) :
    Anomaly.processEvent catalog now st r = .ok (st, []) := by
  simp only [Anomaly.processEvent]
  rcases h with h | h <;> simp [h, pureE]

/-- Witness for C9: a record with no station id is skipped with no events
and an unchanged fresh state. -/
theorem claim_C9_witness :
    Anomaly.processEvent [] 0 Anomaly.AState.init noStationRec =
      .ok (Anomaly.AState.init, []) :=
  claim_C9 [] 0 Anomaly.AState.init noStationRec (Or.inl (by decide))

/-- C10: a record carrying no `customer_id` — neither inside its data
payload nor at the event level — is keyed under the literal string
`"UNKNOWN"` by `SentinelDetector.detect` (part 1); consequently RFID reads
and POS scans from records without customer ids share one state and can
match one another: the customerless POS/RFID/POS sequence produces a
`Succes Operation` attributed to customer `"UNKNOWN"` (part 2). -/
theorem claim_C10 :
    (∀ ev : RecEvent, ev.customer_id = none →
      (pget (ev.data.getD []) "customer_id").truthy = false →
      Sentinel.custKey ev = .vStr "UNKNOWN") ∧
    ((Sentinel.runS Sentinel.SState.init seqC10).log.map Emitted.body =
      [("Succes Operation",
        [("station_id", .vStr "SCC1"), ("customer_id", .vStr "UNKNOWN"),
         ("product_sku", .vStr "S1")])]) := by
  constructor
  · intro ev h1 h2
    simp [Sentinel.custKey, pyOr, h1, h2, ogetD]
  · decide

/-- Witness for C10: the key computed for a concrete customerless RFID
event is the literal `"UNKNOWN"`. -/
theorem claim_C10_witness :
    Sentinel.custKey
      ⟨some (.vStr "Active"), some (.vStr "SCC1"), none,
       some [("sku", .vStr "S1")]⟩ = .vStr "UNKNOWN" :=
  claim_C10.1
    ⟨some (.vStr "Active"), some (.vStr "SCC1"), none,
     some [("sku", .vStr "S1")]⟩ rfl (by decide)

end ProjectSentinel
